import Mathlib

/-!
# Win9x toolchain recipe: a shallow embedding of `Carbidefile.c` and `w95_crt0_exe.c`

The build recipe (`src/template-c/Carbidefile.c`) and the executable start-up shim
(`src/template-c/crt/w95_crt0_exe.c`) are translated function by function.

* C strings are lists of characters (`CStr`); a pointer into a string is the suffix it
  points at; a possibly-NULL `const char *` is an `Option CStr`.
* Fixed-size buffers are kept: `snprintf (buf, size, ...)` and `strncpy` keep at most
  `size - 1` characters. Characters are classified as in the "C" locale.
* The host build orchestrator (`Carbide/Recipe.h`) and the process environment are a
  parameter `Host σ`, where `σ` is the state of the file system; the Win32 API and the
  optional `main` are a parameter `Win32`.
* What a command does is recorded in a trace of events (processes run, messages logged).
-/

namespace Win9x

/-! ## C strings -/

/-- A NUL-terminated C string, without its terminator: one element per `char`. -/
abbrev CStr := List Char

/-- `tolower` of `<ctype.h>` in the "C" locale. -/
def tolower (c : Char) : Char :=
  if 'A'.toNat ≤ c.toNat ∧ c.toNat ≤ 'Z'.toNat then Char.ofNat (c.toNat + 32) else c

/-- `strrchr (s, c)`: the suffix of `s` starting at the last occurrence of `c`,
or `none` (NULL) when `c` does not occur. -/
def strrchr : CStr → Char → Option CStr
  | [], _ => none
  | x :: xs, c =>
    match strrchr xs c with
    | some r => some r
    | none => if x = c then some (x :: xs) else none

/-- `snprintf (buf, size, ...)` where the formatted text is `s`: the buffer receives at most
`size - 1` characters of it. -/
def snprintf (size : Nat) (s : CStr) : CStr := s.take (size - 1)

/-- `strncpy (dst, src, n); dst[n] = 0`: the first `n` characters of `src`. -/
def strncpy (src : CStr) (n : Nat) : CStr := src.take n

/-- `strtok` on the string `s` still to be scanned: skip the leading delimiters; at the end
of the string there is no token (`none`); otherwise the token runs up to the next delimiter,
which is overwritten, and scanning resumes after it. Returns the token and the rest. -/
def strtok (s : CStr) (delim : CStr) : Option (CStr × CStr) :=
  let s1 := s.dropWhile (fun c => decide (c ∈ delim))
  match s1 with
  | [] => none
  | _ :: _ =>
    some (s1.takeWhile (fun c => !decide (c ∈ delim)),
      (s1.dropWhile (fun c => !decide (c ∈ delim))).tail)

/-! ## Name derivation (`Carbidefile.c`, lines 55-80) -/

/-- `lowercase`: every character replaced by its `tolower`. -/
def lowercase (s : CStr) : CStr := s.map tolower

/-- `basename_no_ext (path, out, outsz)`; the result is the content of `out`.
`win32` says whether `_WIN32` is defined. -/
def basename_no_ext (win32 : Bool) (path : CStr) (outsz : Nat) : CStr :=
  let b := strrchr path '/'
  let b := if win32 then (match b with
    | none => strrchr path '\\'
    | some r => some r) else b
  let b := match b with
    | some r => r.tail
    | none => path
  let dot := strrchr b '.'
  let n := match dot with
    | some d => b.length - d.length
    | none => b.length
  let n := if n ≥ outsz then outsz - 1 else n
  b.take n

/-- `make_importlib_name (def_path, out, outsz)`; the result is the content of `out`. -/
def make_importlib_name (win32 : Bool) (def_path : CStr) (outsz : Nat) : CStr :=
  let base := basename_no_ext win32 def_path 192
  let base := lowercase base
  snprintf outsz ("lib".toList ++ base ++ ".a".toList)

/-! ## The name derivation as the specification words it -/

/-- A path separator: `/`, and on Windows also the backslash. -/
def is_path_sep (win32 : Bool) (c : Char) : Bool := c == '/' || (win32 && c == '\\')

/-- The basename of a path: the text after the last path separator. -/
def spec_basename (win32 : Bool) (p : CStr) : CStr :=
  (p.reverse.takeWhile (fun c => !is_path_sep win32 c)).reverse

/-- A basename without its extension: the text from the last `.` onward removed. -/
def spec_strip_ext (b : CStr) : CStr :=
  if '.' ∈ b then ((b.reverse.dropWhile (fun c => c != '.')).drop 1).reverse else b

/-- The import-library name of the specification: `lib` + lowercased basename without
extension + `.a`. -/
def spec_importlib_name (win32 : Bool) (p : CStr) : CStr :=
  "lib".toList ++ (spec_strip_ext (spec_basename win32 p)).map Char.toLower ++ ".a".toList

/-! ## The host interface (`Carbide/Recipe.h`, `<stdlib.h>`) and the trace -/

/-- A value substituted into a log message. -/
inductive LogArg where
  | str (s : CStr)
  | int (i : Int)
  deriving DecidableEq, Repr

/-- What a command does that can be observed from outside. -/
inductive Event where
  | run (argv : List CStr)
  | log_error (fmt : String) (args : List LogArg)
  | log_info (fmt : String) (args : List LogArg)
  | log_verbose (fmt : String) (args : List LogArg)
  deriving DecidableEq, Repr

/-- The host build orchestrator and the process environment, as the recipe sees them.
`σ` is the state of the file system, which `cb_mkdir_p` and the processes started by
`cb_cmd_run` may change; the queries `cb_is_dir`, `cb_file_exists`, `cb_glob`, `cb_rglob`,
`cb_needs_rebuild` and `cb_norm` read it. The environment (`getenv`), the two roots and the
verbosity are fixed while a command runs. The path helpers return valid (non-NULL) strings
and, like `cb_cmd_push_arg`, keep a copy of the strings they are given.
`win32` says whether the recipe is compiled with `_WIN32` defined. -/
structure Host (σ : Type) where
  win32 : Bool
  getenv : CStr → Option CStr
  cb_out_root : CStr
  cb_workspace_root : CStr
  cb_is_verbose : Bool
  cb_join : CStr → CStr → CStr
  cb_rel_to_workspace : CStr → CStr
  cb_norm : σ → CStr → CStr
  cb_is_dir : σ → CStr → Bool
  cb_file_exists : σ → CStr → Bool
  cb_glob : σ → CStr → List CStr
  cb_rglob : σ → CStr → CStr → List CStr
  cb_needs_rebuild : σ → CStr → List CStr → Bool
  cb_mkdir_p : σ → CStr → CStr × σ
  cb_cmd_run : σ → List CStr → (Int × Int) × σ

/-- The state of a command: the file system and the events so far. -/
structure St (σ : Type) where
  fs : σ
  trace : List Event

/-- `cb_log_error (fmt, ...)`. -/
def cb_log_error {σ : Type} (st : St σ) (fmt : String) (args : List LogArg) : St σ :=
  { st with trace := st.trace ++ [Event.log_error fmt args] }

/-- `cb_log_info (fmt, ...)`. -/
def cb_log_info {σ : Type} (st : St σ) (fmt : String) (args : List LogArg) : St σ :=
  { st with trace := st.trace ++ [Event.log_info fmt args] }

/-- `cb_log_verbose (fmt, ...)`. -/
def cb_log_verbose {σ : Type} (st : St σ) (fmt : String) (args : List LogArg) : St σ :=
  { st with trace := st.trace ++ [Event.log_verbose fmt args] }

/-- `cb_cmd_new ()`: a command with no argument yet. -/
def cb_cmd_new : List CStr := []

/-- `cb_cmd_push_arg (c, a)`. -/
def cb_cmd_push_arg (c : List CStr) (a : CStr) : List CStr := c ++ [a]

/-- `cb_cmd_run (c, &code)`: the host runs the process; returns `(rc, code)`. -/
def cb_cmd_run {σ : Type} (h : Host σ) (c : List CStr) (st : St σ) : (Int × Int) × St σ :=
  ((h.cb_cmd_run st.fs c).1,
    { fs := (h.cb_cmd_run st.fs c).2, trace := st.trace ++ [Event.run c] })

/-- The argument lists of the processes run in a trace, in order. -/
def runs : List Event → List (List CStr)
  | [] => []
  | Event.run argv :: es => argv :: runs es
  | _ :: es => runs es

/-! ## The recipe (`Carbidefile.c`) -/

/-- `tool_prefix`. -/
def tool_prefix {σ : Type} (h : Host σ) : CStr :=
  match h.getenv "TOOL_PREFIX".toList with
  | some p => if p ≠ [] then p else "i686-w64-mingw32-".toList
  | none => "i686-w64-mingw32-".toList

/-- `gcc_path`. -/
def gcc_path {σ : Type} (h : Host σ) : CStr :=
  snprintf 256 ( tool_prefix h ++ "gcc".toList)

/-- `dlltool_path`. -/
def dlltool_path {σ : Type} (h : Host σ) : CStr :=
  snprintf 256 ( tool_prefix h ++ "dlltool".toList)

/-- `default_exe_name`. -/
def default_exe_name {σ : Type} (h : Host σ) : CStr :=
  match h.getenv "CB_EXE_NAME".toList with
  | some n => if n ≠ [] then n else "app".toList
  | none => "app".toList

/-- `default_dll_name`. -/
def default_dll_name {σ : Type} (h : Host σ) : CStr :=
  match h.getenv "CB_DLL_NAME".toList with
  | some n => if n ≠ [] then n else "mylib".toList
  | none => "mylib".toList

/-- `locate_def_dir`. -/
def locate_def_dir {σ : Type} (h : Host σ) (st : St σ) : Option CStr × St σ :=
  match h.getenv "WIN95_GENERATED_PATH".toList with
  | some env =>
    if env ≠ [] ∧ h.cb_is_dir st.fs env = true then (some (h.cb_norm st.fs env), st)
    else (none, cb_log_error st "Could not locate .def directory. Set WIN95_GENERATED_PATH" [])
  | none =>
    (none, cb_log_error st "Could not locate .def directory. Set WIN95_GENERATED_PATH" [])

/-- `ensure_out_libdir`. -/
def ensure_out_libdir {σ : Type} (h : Host σ) (st : St σ) : CStr × St σ :=
  let libdir := h.cb_join h.cb_out_root "lib/win95".toList
  ((h.cb_mkdir_p st.fs libdir).1, { st with fs := (h.cb_mkdir_p st.fs libdir).2 })

/-- `ensure_out_bindir`. -/
def ensure_out_bindir {σ : Type} (h : Host σ) (st : St σ) : CStr × St σ :=
  let bindir := h.cb_join h.cb_out_root "bin".toList
  ((h.cb_mkdir_p st.fs bindir).1, { st with fs := (h.cb_mkdir_p st.fs bindir).2 })

/-- The command line that `dlltool_from_def` builds (lines 83-90). -/
def dlltool_cmd {σ : Type} (h : Host σ) (def_path out_a : CStr) : List CStr :=
  let c := cb_cmd_new
  let c := cb_cmd_push_arg c (dlltool_path h)
  let c := cb_cmd_push_arg c "-d".toList
  let c := cb_cmd_push_arg c def_path
  let c := cb_cmd_push_arg c "-k".toList
  let c := cb_cmd_push_arg c "-l".toList
  let c := cb_cmd_push_arg c out_a
  c

/-- `dlltool_from_def`. -/
def dlltool_from_def {σ : Type} (h : Host σ) (def_path out_a : CStr) (st : St σ) :
    Int × St σ :=
  let c := dlltool_cmd h def_path out_a
  let rc := (cb_cmd_run h c st).1.1
  let code := (cb_cmd_run h c st).1.2
  let st := (cb_cmd_run h c st).2
  if rc ≠ 0 ∨ code ≠ 0 then
    (-1, cb_log_error st "dlltool failed for %s -> %s (rc=%d, code=%d)"
      [LogArg.str def_path, LogArg.str out_a, LogArg.int rc, LogArg.int code])
  else if h.cb_is_verbose = true then
    (0, cb_log_info st "Generated %s" [LogArg.str (h.cb_rel_to_workspace out_a)])
  else (0, st)

/-- One pass through the body of the loop of `ensure_import_libs` (lines 123-136), for the
`.def` file `defp`. Returns `false` when the body leaves the function with NULL. -/
def ensure_import_libs_body {σ : Type} (h : Host σ) (libdir defp : CStr) (st : St σ) :
    Bool × St σ :=
  let libname := make_importlib_name h.win32 defp 256
  let out_a := h.cb_join libdir libname
  let inputs := [defp]
  if h.cb_needs_rebuild st.fs out_a inputs = true then
    if (dlltool_from_def h defp out_a st).1 ≠ 0 then
      (false, (dlltool_from_def h defp out_a st).2)
    else (true, (dlltool_from_def h defp out_a st).2)
  else if h.cb_is_verbose = true then
    (true, cb_log_verbose st "Up to date: %s" [LogArg.str (h.cb_rel_to_workspace out_a)])
  else (true, st)

/-- The loop of `ensure_import_libs` (lines 122-137) over the `.def` files still to do. -/
def ensure_import_libs_loop {σ : Type} (h : Host σ) (libdir : CStr) :
    List CStr → St σ → Bool × St σ
  | [], st => (true, st)
  | defp :: rest, st =>
    if (ensure_import_libs_body h libdir defp st).1 = true then
      ensure_import_libs_loop h libdir rest (ensure_import_libs_body h libdir defp st).2
    else (false, (ensure_import_libs_body h libdir defp st).2)

/-- `ensure_import_libs`. -/
def ensure_import_libs {σ : Type} (h : Host σ) (st : St σ) : Option CStr × St σ :=
  match locate_def_dir h st with
  | (none, st) => (none, st)
  | (some def_dir, st) =>
    let libdir := (ensure_out_libdir h st).1
    let st := (ensure_out_libdir h st).2
    let defs := h.cb_glob st.fs (h.cb_join def_dir "*.def".toList)
    if defs.length = 0 then
      (none, cb_log_error st "No .def files found in %s" [LogArg.str def_dir])
    else
      if (ensure_import_libs_loop h libdir defs st).1 = true then
        (some libdir, (ensure_import_libs_loop h libdir defs st).2)
      else (none, (ensure_import_libs_loop h libdir defs st).2)

/-- `collect_exe_sources (out)`, for an `out` that is still empty. -/
def collect_exe_sources {σ : Type} (h : Host σ) (st : St σ) : List CStr × St σ :=
  let root := h.cb_join h.cb_workspace_root "source/exe".toList
  if h.cb_is_dir st.fs root = false then
    ([], cb_log_error st "EXE source directory not found: %s"
      [LogArg.str (h.cb_rel_to_workspace root)])
  else (h.cb_rglob st.fs root ".c".toList, st)

/-- `collect_dll_sources (out)`, for an `out` that is still empty. -/
def collect_dll_sources {σ : Type} (h : Host σ) (st : St σ) : List CStr × St σ :=
  let root := h.cb_join h.cb_workspace_root "source/dll".toList
  if h.cb_is_dir st.fs root = false then
    ([], cb_log_error st "DLL source directory not found: %s"
      [LogArg.str (h.cb_rel_to_workspace root)])
  else (h.cb_rglob st.fs root ".c".toList, st)

/-- `push_sources_to_cmd`. -/
def push_sources_to_cmd (c : List CStr) : List CStr → List CStr
  | [] => c
  | s :: srcs => push_sources_to_cmd (cb_cmd_push_arg c s) srcs

/-- `exe_crt0_path`. -/
def exe_crt0_path {σ : Type} (h : Host σ) (st : St σ) : Option CStr :=
  let p := h.cb_join h.cb_workspace_root "crt/w95_crt0_exe.c".toList
  if h.cb_file_exists st.fs p = true then some p else none

/-- `dll_crt0_path`. -/
def dll_crt0_path {σ : Type} (h : Host σ) (st : St σ) : Option CStr :=
  let p := h.cb_join h.cb_workspace_root "crt/w95_crt0_dll.c".toList
  if h.cb_file_exists st.fs p = true then some p else none

/-- The `while (tok)` loop of lines 238-244 and 320-326: `rest` is the part of `tmp` that
`strtok` has still to scan. Every pass consumes at least one character of `rest`, so
`fuel` above its length is never used up. -/
def push_extra_libs_loop : Nat → CStr → List CStr → List CStr
  | 0, _, c => c
  | fuel + 1, rest, c =>
    match strtok rest " ".toList with
    | none => c
    | some (tok, rest) =>
      let flag := snprintf 64 ("-l".toList ++ tok)
      push_extra_libs_loop fuel rest (cb_cmd_push_arg c flag)

/-- Lines 233-245 of `cmd_exe`, the same text as lines 315-327 of `cmd_dll`: the flags for
`EXTRA_LIBS` pushed on the command `c`. -/
def push_extra_libs {σ : Type} (h : Host σ) (c : List CStr) : List CStr :=
  match h.getenv "EXTRA_LIBS".toList with
  | some extra =>
    if extra ≠ [] then
      let tmp := strncpy extra (512 - 1)
      push_extra_libs_loop (tmp.length + 1) tmp c
    else c
  | none => c

/-- The command line that `cmd_exe` builds (lines 203-245). -/
def cmd_exe_cmd {σ : Type} (h : Host σ) (libdir outbuf crt0 : CStr) (srcs : List CStr) :
    List CStr :=
  let c := cb_cmd_new
  let c := cb_cmd_push_arg c (gcc_path h)
  let c := cb_cmd_push_arg c "-nostartfiles".toList
  let c := cb_cmd_push_arg c "-nostdlib".toList
  let c := cb_cmd_push_arg c "-O2".toList
  let c := cb_cmd_push_arg c "-s".toList
  let c := cb_cmd_push_arg c "-fno-asynchronous-unwind-tables".toList
  let c := cb_cmd_push_arg c "-fno-ident".toList
  let c := cb_cmd_push_arg c "-march=pentium".toList
  let c := cb_cmd_push_arg c "-mno-sse".toList
  let c := cb_cmd_push_arg c "-mno-sse2".toList
  let c := cb_cmd_push_arg c "-o".toList
  let c := cb_cmd_push_arg c outbuf
  let c := cb_cmd_push_arg c crt0
  let c := push_sources_to_cmd c srcs
  let c := cb_cmd_push_arg c "-L".toList
  let c := cb_cmd_push_arg c libdir
  let c := cb_cmd_push_arg c "-Wl,--subsystem,windows".toList
  let c := cb_cmd_push_arg c "-Wl,--major-subsystem-version,4".toList
  let c := cb_cmd_push_arg c "-Wl,--minor-subsystem-version,0".toList
  let c := cb_cmd_push_arg c "-Wl,-e,_mainCRTStartup@0".toList
  let c := cb_cmd_push_arg c "-lkernel32".toList
  let c := cb_cmd_push_arg c "-lmsvcrt".toList
  let c := cb_cmd_push_arg c "-lgcc".toList
  push_extra_libs h c

/-- `cmd_exe`. -/
def cmd_exe {σ : Type} (h : Host σ) (st : St σ) : Int × St σ :=
  match ensure_import_libs h st with
  | (none, st) => (1, st)
  | (some libdir, st) =>
    let bindir := (ensure_out_bindir h st).1
    let st := (ensure_out_bindir h st).2
    let exe_name := default_exe_name h
    let srcs := (collect_exe_sources h st).1
    let st := (collect_exe_sources h st).2
    if srcs.length = 0 then
      (1, cb_log_error st "No EXE sources found (expected under source/exe/**/*.c)" [])
    else
      let out_exe := h.cb_join bindir (h.cb_join [] exe_name)
      let outbuf := snprintf 512 (out_exe ++ ".exe".toList)
      match exe_crt0_path h st with
      | none => (1, cb_log_error st "Missing crt/w95_crt0_exe.c" [])
      | some crt0 =>
        let c := cmd_exe_cmd h libdir outbuf crt0 srcs
        let rc := (cb_cmd_run h c st).1.1
        let code := (cb_cmd_run h c st).1.2
        let st := (cb_cmd_run h c st).2
        if rc ≠ 0 ∨ code ≠ 0 then
          (1, cb_log_error st "link failed (rc=%d, code=%d)" [LogArg.int rc, LogArg.int code])
        else
          (0, cb_log_verbose st "Built %s" [LogArg.str (h.cb_rel_to_workspace outbuf)])

/-- The command line that `cmd_dll` builds (lines 284-327). -/
def cmd_dll_cmd {σ : Type} (h : Host σ) (libdir outdll crt0 : CStr) (srcs : List CStr) :
    List CStr :=
  let c := cb_cmd_new
  let c := cb_cmd_push_arg c (gcc_path h)
  let c := cb_cmd_push_arg c "-shared".toList
  let c := cb_cmd_push_arg c "-nostartfiles".toList
  let c := cb_cmd_push_arg c "-nostdlib".toList
  let c := cb_cmd_push_arg c "-O2".toList
  let c := cb_cmd_push_arg c "-s".toList
  let c := cb_cmd_push_arg c "-fno-asynchronous-unwind-tables".toList
  let c := cb_cmd_push_arg c "-fno-ident".toList
  let c := cb_cmd_push_arg c "-march=pentium".toList
  let c := cb_cmd_push_arg c "-mno-sse".toList
  let c := cb_cmd_push_arg c "-mno-sse2".toList
  let c := cb_cmd_push_arg c "-o".toList
  let c := cb_cmd_push_arg c outdll
  let c := cb_cmd_push_arg c crt0
  let c := push_sources_to_cmd c srcs
  let c := cb_cmd_push_arg c "-L".toList
  let c := cb_cmd_push_arg c libdir
  let c := cb_cmd_push_arg c "-Wl,--major-subsystem-version,4".toList
  let c := cb_cmd_push_arg c "-Wl,--minor-subsystem-version,0".toList
  let c := cb_cmd_push_arg c "-Wl,-e,_DllMainCRTStartup@12".toList
  let c := cb_cmd_push_arg c "-lkernel32".toList
  let c := cb_cmd_push_arg c "-lmsvcrt".toList
  let c := cb_cmd_push_arg c "-lgcc".toList
  push_extra_libs h c

/-- `cmd_dll`. -/
def cmd_dll {σ : Type} (h : Host σ) (st : St σ) : Int × St σ :=
  match ensure_import_libs h st with
  | (none, st) => (1, st)
  | (some libdir, st) =>
    let bindir := (ensure_out_bindir h st).1
    let st := (ensure_out_bindir h st).2
    let dll_base := default_dll_name h
    let srcs := (collect_dll_sources h st).1
    let st := (collect_dll_sources h st).2
    if srcs.length = 0 then
      (1, cb_log_error st "No DLL sources found (expected under source/dll/**/*.c)" [])
    else
      let outdll := snprintf 512 (h.cb_join bindir (h.cb_join [] dll_base) ++ ".dll".toList)
      match dll_crt0_path h st with
      | none => (1, cb_log_error st "Missing crt/w95_crt0_dll.c" [])
      | some crt0 =>
        let c := cmd_dll_cmd h libdir outdll crt0 srcs
        let rc := (cb_cmd_run h c st).1.1
        let code := (cb_cmd_run h c st).1.2
        let st := (cb_cmd_run h c st).2
        if rc ≠ 0 ∨ code ≠ 0 then
          (1, cb_log_error st "dll link failed (rc=%d, code=%d)"
            [LogArg.int rc, LogArg.int code])
        else
          (0, cb_log_verbose st "Built %s" [LogArg.str (h.cb_rel_to_workspace outdll)])

/-- The library names in a value of `EXTRA_LIBS`, as the specification words it: the
maximal non-empty runs of characters other than the space. -/
def spec_lib_names (s : CStr) : List CStr :=
  (s.splitOnP (fun c => c == ' ')).filter (fun t => !t.isEmpty)

/-- The flag of the specification for one library name: `-l` + name. -/
def spec_lib_flag (name : CStr) : CStr := "-l".toList ++ name

/-- The flags of the specification for a value of `EXTRA_LIBS` (`none` when unset): one
flag per library name, in order. -/
def spec_extra_flags (extra : Option CStr) : List CStr :=
  match extra with
  | some e => (spec_lib_names e).map spec_lib_flag
  | none => []

/-- The flags the code pushes for a value of `EXTRA_LIBS`, in the words of the
specification: the names are those of the first 511 characters of the value, and a flag
keeps at most 63 characters. -/
def cut_extra_flags (extra : Option CStr) : List CStr :=
  match extra with
  | some e => (spec_lib_names (e.take 511)).map (fun n => (spec_lib_flag n).take 63)
  | none => []

/-- The argument list of the EXE link step in the words of the specification, for the
compiler `gcc`, the output file `out`, the CRT file `C`, the sources `S` and the
import-library directory `L`. -/
def spec_exe_argv (gcc out C : CStr) (S : List CStr) (L : CStr) : List CStr :=
  [gcc] ++ ["-nostartfiles", "-nostdlib", "-O2", "-s", "-fno-asynchronous-unwind-tables",
      "-fno-ident", "-march=pentium", "-mno-sse", "-mno-sse2", "-o"].map String.toList
    ++ [out, C] ++ S ++ ["-L".toList, L]
    ++ ["-Wl,--subsystem,windows", "-Wl,--major-subsystem-version,4",
      "-Wl,--minor-subsystem-version,0", "-Wl,-e,_mainCRTStartup@0",
      "-lkernel32", "-lmsvcrt", "-lgcc"].map String.toList

/-- The argument list of the DLL link step in the words of the specification. -/
def spec_dll_argv (gcc out C : CStr) (S : List CStr) (L : CStr) : List CStr :=
  [gcc] ++ ["-shared", "-nostartfiles", "-nostdlib", "-O2", "-s",
      "-fno-asynchronous-unwind-tables", "-fno-ident", "-march=pentium", "-mno-sse",
      "-mno-sse2", "-o"].map String.toList
    ++ [out, C] ++ S ++ ["-L".toList, L]
    ++ ["-Wl,--major-subsystem-version,4", "-Wl,--minor-subsystem-version,0",
      "-Wl,-e,_DllMainCRTStartup@12", "-lkernel32", "-lmsvcrt", "-lgcc"].map String.toList

/-! ## Observers used to state the properties of `cmd_exe` and `cmd_dll` -/

/-- The `bin` directory as `cmd_exe` and `cmd_dll` obtain it, after the import-library
step. -/
def link_bindir {σ : Type} (h : Host σ) (st : St σ) : CStr :=
  (ensure_out_bindir h (ensure_import_libs h st).2).1

/-- The sources `cmd_exe` collects. -/
def exe_sources {σ : Type} (h : Host σ) (st : St σ) : List CStr :=
  (collect_exe_sources h (ensure_out_bindir h (ensure_import_libs h st).2).2).1

/-- The state of `cmd_exe` once the sources are collected. -/
def exe_link_state {σ : Type} (h : Host σ) (st : St σ) : St σ :=
  (collect_exe_sources h (ensure_out_bindir h (ensure_import_libs h st).2).2).2

/-- The output file name `outbuf` of `cmd_exe`. -/
def exe_outbuf {σ : Type} (h : Host σ) (st : St σ) : CStr :=
  snprintf 512 (h.cb_join (link_bindir h st) (h.cb_join [] (default_exe_name h))
    ++ ".exe".toList)

/-- The sources `cmd_dll` collects. -/
def dll_sources {σ : Type} (h : Host σ) (st : St σ) : List CStr :=
  (collect_dll_sources h (ensure_out_bindir h (ensure_import_libs h st).2).2).1

/-- The state of `cmd_dll` once the sources are collected. -/
def dll_link_state {σ : Type} (h : Host σ) (st : St σ) : St σ :=
  (collect_dll_sources h (ensure_out_bindir h (ensure_import_libs h st).2).2).2

/-- The output file name `outdll` of `cmd_dll`. -/
def dll_outdll {σ : Type} (h : Host σ) (st : St σ) : CStr :=
  snprintf 512 (h.cb_join (link_bindir h st) (h.cb_join [] (default_dll_name h))
    ++ ".dll".toList)

/-- The link step of `cmd_exe` is reached: the import-library step succeeded, at least one
source file was collected and the CRT file exists. -/
def exe_link_reached {σ : Type} (h : Host σ) (st : St σ) : Prop :=
  (ensure_import_libs h st).1 ≠ none ∧ exe_sources h st ≠ []
    ∧ exe_crt0_path h (exe_link_state h st) ≠ none

/-- The command line of the link step of `cmd_exe` (meaningful when it is reached). -/
def exe_link_cmd {σ : Type} (h : Host σ) (st : St σ) : List CStr :=
  cmd_exe_cmd h ((ensure_import_libs h st).1.getD []) (exe_outbuf h st)
    ((exe_crt0_path h (exe_link_state h st)).getD []) (exe_sources h st)

/-- The link process of `cmd_exe` reports the logical return code 0 and the exit code 0. -/
def exe_link_ok {σ : Type} (h : Host σ) (st : St σ) : Prop :=
  (h.cb_cmd_run (exe_link_state h st).fs (exe_link_cmd h st)).1 = (0, 0)

/-- The link step of `cmd_dll` is reached. -/
def dll_link_reached {σ : Type} (h : Host σ) (st : St σ) : Prop :=
  (ensure_import_libs h st).1 ≠ none ∧ dll_sources h st ≠ []
    ∧ dll_crt0_path h (dll_link_state h st) ≠ none

/-- The command line of the link step of `cmd_dll` (meaningful when it is reached). -/
def dll_link_cmd {σ : Type} (h : Host σ) (st : St σ) : List CStr :=
  cmd_dll_cmd h ((ensure_import_libs h st).1.getD []) (dll_outdll h st)
    ((dll_crt0_path h (dll_link_state h st)).getD []) (dll_sources h st)

/-- The link process of `cmd_dll` reports the logical return code 0 and the exit code 0. -/
def dll_link_ok {σ : Type} (h : Host σ) (st : St σ) : Prop :=
  (h.cb_cmd_run (dll_link_state h st).fs (dll_link_cmd h st)).1 = (0, 0)

instance {σ : Type} (h : Host σ) (st : St σ) : Decidable (exe_link_reached h st) := by
  unfold exe_link_reached
  exact inferInstance

instance {σ : Type} (h : Host σ) (st : St σ) : Decidable (exe_link_ok h st) := by
  unfold exe_link_ok
  exact inferInstance

instance {σ : Type} (h : Host σ) (st : St σ) : Decidable (dll_link_reached h st) := by
  unfold dll_link_reached
  exact inferInstance

instance {σ : Type} (h : Host σ) (st : St σ) : Decidable (dll_link_ok h st) := by
  unfold dll_link_ok
  exact inferInstance

/-! ## A concrete host, to run the recipe on examples -/

/-- A small host. Its file system state is the list of the import libraries that exist and
are up to date. The `.def` directory holds `a.def`, `b.def` and `c.def`; each source root
holds `main.c`; `dlltool` fails (exit code 1) on the `.def` files of `bad` and otherwise
creates its output; every other process succeeds. -/
def demo_host (env : List (CStr × CStr)) (bad : List CStr) : Host (List CStr) where
  win32 := false
  getenv := fun k => env.lookup k
  cb_out_root := "out".toList
  cb_workspace_root := "ws".toList
  cb_is_verbose := false
  cb_join := fun a b => if a = [] then b else a ++ '/' :: b
  cb_rel_to_workspace := fun p => p
  cb_norm := fun _ p => p
  cb_is_dir := fun _ p =>
    decide (p ∈ ["defs", "ws/source/exe", "ws/source/dll"].map String.toList)
  cb_file_exists := fun _ _ => true
  cb_glob := fun _ _ => ["defs/a.def", "defs/b.def", "defs/c.def"].map String.toList
  cb_rglob := fun _ root _ => [root ++ "/main.c".toList]
  cb_needs_rebuild := fun fs out _ => decide (out ∉ fs)
  cb_mkdir_p := fun fs p => (p, fs)
  cb_cmd_run := fun fs argv =>
    match argv with
    | [_, _, defp, _, _, out] => if defp ∈ bad then ((0, 1), fs) else ((0, 0), out :: fs)
    | _ => ((0, 0), fs)

/-- An environment that sets only `WIN95_GENERATED_PATH`. -/
def demo_env : List (CStr × CStr) := [("WIN95_GENERATED_PATH".toList, "defs".toList)]

/-- The three import libraries of the concrete host. -/
def demo_libs : List CStr :=
  ["out/lib/win95/liba.a", "out/lib/win95/libb.a", "out/lib/win95/libc.a"].map String.toList

/-- A state of the concrete host in which the three import libraries are up to date. -/
def demo_fresh : St (List CStr) := { fs := demo_libs, trace := [] }

/-- A state of the concrete host in which no import library exists yet. -/
def demo_clean : St (List CStr) := { fs := [], trace := [] }

/-- An environment with a `TOOL_PREFIX` of 253 characters. -/
def long_prefix_env : List (CStr × CStr) :=
  ("TOOL_PREFIX".toList, List.replicate 253 'p') :: demo_env

/-- An environment with artifact names of 504 characters. -/
def long_name_env : List (CStr × CStr) :=
  ("CB_EXE_NAME".toList, List.replicate 504 'n')
    :: ("CB_DLL_NAME".toList, List.replicate 504 'n') :: demo_env

/-- An environment whose `EXTRA_LIBS` is one library name of 62 characters. -/
def long_lib_env : List (CStr × CStr) :=
  ("EXTRA_LIBS".toList, List.replicate 62 'x') :: demo_env

/-- An environment whose `EXTRA_LIBS` is 510 spaces followed by `ab`. -/
def long_extra_env : List (CStr × CStr) :=
  ("EXTRA_LIBS".toList, List.replicate 510 ' ' ++ "ab".toList) :: demo_env

/-- The concrete host, except that it reports every file as missing, so that the CRT files
are not found. -/
def no_crt_host : Host (List CStr) :=
  { demo_host demo_env [] with cb_file_exists := fun _ _ => false }

/-- An environment whose `EXTRA_LIBS` names two libraries, with spaces around them. -/
def two_libs_env : List (CStr × CStr) :=
  ("EXTRA_LIBS".toList, " user32  gdi32 ".toList) :: demo_env

/-! ## The start-up shim (`crt/w95_crt0_exe.c`) -/

/-- The type `PFN`: a function without arguments that returns a string. -/
abbrev PFN := Unit → CStr

/-- The Win32 API as the shim uses it, and the weak symbol `main`.
`MAX_PATH` is the constant of `<windows.h>`. `GetModuleFileNameA n` is the call
`GetModuleFileNameA (NULL, buf, n)`: the value returned and the string left in `buf`.
`main` is `none` when the weak symbol is null; a `main` that does not return (it loops or
ends the process itself) gives `none`. -/
structure Win32 where
  MAX_PATH : Nat
  GetModuleFileNameA : Nat → Nat × CStr
  GetModuleHandleA : Option CStr → Option Nat
  GetProcAddress : Option Nat → CStr → Option PFN
  main : Option (Int → Option (List (Option CStr)) → Option Int)

/-- The calls the shim makes, in order. -/
inductive CrtEvent where
  | GetModuleFileNameA (nSize : Nat)
  | GetModuleHandleA (name : Option CStr)
  | GetProcAddress (hModule : Option Nat) (name : CStr)
  | GetCommandLineA
  | main (argc : Int) (argv : Option (List (Option CStr)))
  | ExitProcess (uExitCode : Nat)
  deriving DecidableEq, Repr

/-- How the entry point ends: the process is ended by `ExitProcess`, or the entry point
returns to the loader, or `main` never gave control back. -/
inductive Ending where
  | exit_process (uExitCode : Nat)
  | returned_to_loader
  | main_did_not_return
  deriving DecidableEq, Repr

/-- The conversion `(UINT) rc` of an `int` to a 32-bit unsigned integer. -/
def UINT (rc : Int) : Nat := (rc % 2 ^ 32).toNat

/-- The conversion of a 32-bit unsigned integer back to `int`. -/
def to_int (u : Nat) : Int := if u < 2 ^ 31 then (u : Int) else (u : Int) - 2 ^ 32

/-- `get_cmdline_fallback`: the string returned and the calls made. -/
def get_cmdline_fallback (w : Win32) : CStr × List CrtEvent :=
  let hK := w.GetModuleHandleA (some "KERNEL32.DLL".toList)
  let tr := [CrtEvent.GetModuleHandleA (some "KERNEL32.DLL".toList)]
  let hK' := if hK = none then w.GetModuleHandleA none else hK
  let tr := if hK = none then tr ++ [CrtEvent.GetModuleHandleA none] else tr
  let p := w.GetProcAddress hK' "GetCommandLineA".toList
  let tr := tr ++ [CrtEvent.GetProcAddress hK' "GetCommandLineA".toList]
  match p with
  | some p => (p (), tr ++ [CrtEvent.GetCommandLineA])
  | none => ([], tr)

/-- `call_main`: the value returned (`none` when `main` does not return) and the calls
made. -/
def call_main (w : Win32) : Option Int × List CrtEvent :=
  let argv0 : Option CStr := none
  let n := (w.GetModuleFileNameA w.MAX_PATH).1
  let buf := (w.GetModuleFileNameA w.MAX_PATH).2
  let tr := [CrtEvent.GetModuleFileNameA w.MAX_PATH]
  let argv0 := if n ≠ 0 ∧ n < w.MAX_PATH then some buf else argv0
  let argv1 : List (Option CStr) := [argv0]
  match w.main with
  | some main =>
    let argc : Int := if argv0.isSome then 1 else 0
    let argv := if argv0.isSome then some argv1 else none
    (main argc argv, tr ++ [CrtEvent.main argc argv])
  | none => (some 0, tr)

/-- `mainCRTStartup`: how it ends and the calls made. `ExitProcess` does not return. -/
def mainCRTStartup (w : Win32) : Ending × List CrtEvent :=
  match call_main w with
  | (none, tr) => (Ending.main_did_not_return, tr)
  | (some rc, tr) => (Ending.exit_process (UINT rc), tr ++ [CrtEvent.ExitProcess (UINT rc)])

/-- The number of calls of `main` in a trace. -/
def main_calls : List CrtEvent → Nat
  | [] => 0
  | CrtEvent.main _ _ :: es => main_calls es + 1
  | _ :: es => main_calls es

/-- The codes passed to `ExitProcess` in a trace, in order. -/
def exit_calls : List CrtEvent → List Nat
  | [] => []
  | CrtEvent.ExitProcess u :: es => u :: exit_calls es
  | _ :: es => exit_calls es

/-- A concrete Win32 environment: `MAX_PATH` is 260, the module path is `C:\APP.EXE`, and
`main` returns its argument count plus 41. -/
def demo_win32 : Win32 where
  MAX_PATH := 260
  GetModuleFileNameA := fun _ => (10, "C:\\APP.EXE".toList)
  GetModuleHandleA := fun _ => some 1
  GetProcAddress := fun _ _ => none
  main := some (fun argc _ => some (argc + 41))

/-! ## Lemmas on C strings -/

theorem tolower_eq_toLower (c : Char) : tolower c = c.toLower := rfl

theorem strrchr_eq_none {s : CStr} {c : Char} : strrchr s c = none ↔ c ∉ s := by
  induction s with
  | nil => simp [strrchr]
  | cons x xs ih =>
    unfold strrchr
    cases hx : strrchr xs c with
    | some r =>
      have : ¬ c ∉ xs := fun hn => by rw [ih.mpr hn] at hx; cases hx
      simp only [List.mem_cons, not_or]
      constructor
      · intro h; cases h
      · intro h; exact absurd h.2 this
    | none =>
      have hc : c ∉ xs := ih.mp hx
      by_cases hxc : x = c
      · simp [hxc]
      · simp only [hxc, if_false, List.mem_cons, not_or, true_iff]
        exact ⟨fun e => hxc e.symm, hc⟩

theorem strrchr_eq_some {s : CStr} {c : Char} {r : CStr} (h : strrchr s c = some r) :
    ∃ pre r', s = pre ++ c :: r' ∧ r = c :: r' ∧ c ∉ r' := by
  induction s generalizing r with
  | nil => simp [strrchr] at h
  | cons x xs ih =>
    unfold strrchr at h
    cases hx : strrchr xs c with
    | some r0 =>
      rw [hx] at h
      obtain ⟨pre, r', h1, h2, h3⟩ := ih hx
      cases h
      exact ⟨x :: pre, r', by rw [h1]; rfl, h2, h3⟩
    | none =>
      rw [hx] at h
      by_cases hxc : x = c
      · simp only [hxc, if_true] at h
        cases h
        exact ⟨[], xs, by simp [hxc], rfl, strrchr_eq_none.mp hx⟩
      · simp [hxc] at h

theorem reverse_takeWhile_all {α : Type} (q : α → Bool) (s : List α)
    (h : ∀ x ∈ s, q x = true) : (s.reverse.takeWhile q).reverse = s := by
  have : s.reverse.takeWhile q = s.reverse := by
    rw [List.takeWhile_eq_self_iff]
    intro x hx
    exact h x (List.mem_reverse.mp hx)
  rw [this, List.reverse_reverse]

theorem reverse_takeWhile_split {α : Type} (q : α → Bool) (pre r : List α) (c : α)
    (hc : q c = false) (h : ∀ x ∈ r, q x = true) :
    ((pre ++ c :: r).reverse.takeWhile q).reverse = r := by
  have e : (pre ++ c :: r).reverse = r.reverse ++ c :: pre.reverse := by simp
  rw [e, List.takeWhile_append_of_pos (fun a ha => h a (List.mem_reverse.mp ha))]
  simp [List.takeWhile_cons, hc]

/-- The basename the code takes (the text after the last `/`, or on Windows after the last
backslash when there is no `/`) is the text after the last path separator, provided that on
Windows no backslash follows the last `/`. -/
theorem code_basename_eq (win32 : Bool) (p : CStr)
    (hsep : win32 = true → '/' ∈ p → '\\' ∉ spec_basename false p) :
    (match (if win32 then (match strrchr p '/' with
        | none => strrchr p '\\'
        | some r => some r) else strrchr p '/') with
      | some r => r.tail
      | none => p) = spec_basename win32 p := by
  cases hs : strrchr p '/' with
  | none =>
    have hno : '/' ∉ p := strrchr_eq_none.mp hs
    cases win32 with
    | false =>
      simp only [Bool.false_eq_true, if_false]
      unfold spec_basename
      rw [reverse_takeWhile_all]
      intro x hx
      have : x ≠ '/' := fun e => hno (e ▸ hx)
      simp [is_path_sep, this]
    | true =>
      simp only [if_true]
      cases hb : strrchr p '\\' with
      | none =>
        have hnb : '\\' ∉ p := strrchr_eq_none.mp hb
        unfold spec_basename
        rw [reverse_takeWhile_all]
        intro x hx
        have h1 : x ≠ '/' := fun e => hno (e ▸ hx)
        have h2 : x ≠ '\\' := fun e => hnb (e ▸ hx)
        simp [is_path_sep, h1, h2]
      | some r =>
        obtain ⟨pre, r', h1, h2, h3⟩ := strrchr_eq_some hb
        subst h2
        unfold spec_basename
        rw [h1, reverse_takeWhile_split]
        · rfl
        · simp [is_path_sep]
        · intro x hx
          have hx1 : x ≠ '/' := fun e => hno (by rw [h1]; exact e ▸ (by simp [hx]))
          have hx2 : x ≠ '\\' := fun e => h3 (e ▸ hx)
          simp [is_path_sep, hx1, hx2]
  | some r =>
    obtain ⟨pre, r', h1, h2, h3⟩ := strrchr_eq_some hs
    subst h2
    have hmem : '/' ∈ p := by rw [h1]; simp
    have hfalse : spec_basename false p = r' := by
      unfold spec_basename
      rw [h1, reverse_takeWhile_split]
      · simp [is_path_sep]
      · intro x hx
        have hx1 : x ≠ '/' := fun e => h3 (e ▸ hx)
        simp [is_path_sep, hx1]
    cases win32 with
    | false => simp only [Bool.false_eq_true, if_false, List.tail_cons, hfalse]
    | true =>
      simp only [if_true, List.tail_cons]
      have hnb : '\\' ∉ r' := hfalse ▸ hsep rfl hmem
      unfold spec_basename
      rw [h1, reverse_takeWhile_split]
      · simp [is_path_sep]
      · intro x hx
        have hx1 : x ≠ '/' := fun e => h3 (e ▸ hx)
        have hx2 : x ≠ '\\' := fun e => hnb (e ▸ hx)
        simp [is_path_sep, hx1, hx2]

/-- Cutting a basename at its last `.` (or not at all when it has none), as the code does
with `strrchr`, removes the extension. -/
theorem code_strip_ext_eq (b : CStr) :
    b.take (match strrchr b '.' with
      | some d => b.length - d.length
      | none => b.length) = spec_strip_ext b := by
  cases hd : strrchr b '.' with
  | none =>
    have : '.' ∉ b := strrchr_eq_none.mp hd
    simp [spec_strip_ext, this]
  | some d =>
    obtain ⟨pre, r', h1, h2, h3⟩ := strrchr_eq_some hd
    subst h2
    have hmem : '.' ∈ b := by rw [h1]; simp
    have e : b.reverse = r'.reverse ++ '.' :: pre.reverse := by rw [h1]; simp
    have hdrop : b.reverse.dropWhile (fun c => c != '.') = '.' :: pre.reverse := by
      rw [e, List.dropWhile_append_of_pos]
      · simp [List.dropWhile_cons]
      · intro a ha
        have : a ≠ '.' := fun e => h3 (e ▸ List.mem_reverse.mp ha)
        simp [this]
    simp only [spec_strip_ext, hmem, if_true, hdrop, List.drop_succ_cons, List.drop_zero,
      List.reverse_reverse]
    rw [h1]
    simp

/-- What `basename_no_ext` writes into a buffer of `outsz > 0` bytes: the basename without
extension, cut to `outsz - 1` characters. -/
theorem basename_no_ext_eq (win32 : Bool) (p : CStr) (outsz : Nat) (hpos : 0 < outsz)
    (hsep : win32 = true → '/' ∈ p → '\\' ∉ spec_basename false p) :
    basename_no_ext win32 p outsz
      = (spec_strip_ext (spec_basename win32 p)).take (outsz - 1) := by
  unfold basename_no_ext
  simp only []
  rw [code_basename_eq win32 p hsep, ← code_strip_ext_eq, List.take_take]
  congr 1
  split <;> omega

theorem lowercase_eq (s : CStr) : lowercase s = s.map Char.toLower := rfl

/-- The basename without extension of `pre.ext`, when `pre.ext` has no separator and `ext`
no `.`, is `pre`. -/
theorem spec_stem_of_plain (win32 : Bool) (pre ext : CStr)
    (h1 : ∀ x ∈ pre ++ '.' :: ext, is_path_sep win32 x = false) (h2 : '.' ∉ ext) :
    spec_strip_ext (spec_basename win32 (pre ++ '.' :: ext)) = pre := by
  have hb : spec_basename win32 (pre ++ '.' :: ext) = pre ++ '.' :: ext := by
    unfold spec_basename
    apply reverse_takeWhile_all
    intro x hx
    simp [h1 x hx]
  rw [hb, ← code_strip_ext_eq]
  have hs : ∃ d, strrchr (pre ++ '.' :: ext) '.' = some d := by
    cases hd : strrchr (pre ++ '.' :: ext) '.' with
    | none => exact absurd (strrchr_eq_none.mp hd) (by simp)
    | some d => exact ⟨d, rfl⟩
  obtain ⟨d, hd⟩ := hs
  obtain ⟨pre2, r2, e1, e2, e3⟩ := strrchr_eq_some hd
  rw [hd]
  subst e2
  have hlen : (pre ++ '.' :: ext).length - ('.' :: r2).length = pre2.length := by
    rw [e1]; simp
  simp only [hlen]
  have hpre : pre2 = pre ∧ r2 = ext := by
    have := List.append_eq_append_iff.mp e1
    rcases this with ⟨a, ha1, ha2⟩ | ⟨a, ha1, ha2⟩
    · cases a with
      | nil => simp at ha1 ha2; exact ⟨ha1, ha2.symm⟩
      | cons y ys =>
        simp only [List.cons_append, List.cons.injEq] at ha2
        exact absurd (by rw [ha2.2]; simp) h2
    · cases a with
      | nil => simp at ha1 ha2; exact ⟨ha1.symm, ha2⟩
      | cons y ys =>
        simp only [List.cons_append, List.cons.injEq] at ha2
        exact absurd (by rw [ha2.2]; simp) e3
  rw [hpre.1]
  simp

/-- What `make_importlib_name` writes into the 256-byte buffer of its caller. -/
theorem make_importlib_name_eq (win32 : Bool) (p : CStr)
    (hsep : win32 = true → '/' ∈ p → '\\' ∉ spec_basename false p) :
    make_importlib_name win32 p 256
        = "lib".toList
          ++ ((spec_strip_ext (spec_basename win32 p)).take 191).map Char.toLower
          ++ ".a".toList := by
  unfold make_importlib_name
  simp only []
  rw [basename_no_ext_eq win32 p 192 (by decide) hsep, lowercase_eq]
  unfold snprintf
  apply List.take_of_length_le
  have h1 : ((spec_strip_ext (spec_basename win32 p)).take (192 - 1)).length ≤ 191 := by
    rw [List.length_take]; omega
  have h3 : "lib".toList.length = 3 := by decide
  have h2 : ".a".toList.length = 2 := by decide
  simp only [List.length_append, List.length_map, h3, h2]
  omega

/-! ## Lemmas on the `EXTRA_LIBS` loop -/

theorem delim_space_eq :
    (fun c : Char => decide (c ∈ " ".toList)) = (fun c : Char => c == ' ') := by
  funext c
  have : " ".toList = [' '] := rfl
  rw [this]
  by_cases h : c = ' ' <;> simp [h]

theorem delim_not_space_eq :
    (fun c : Char => !decide (c ∈ " ".toList)) = (fun c : Char => !(c == ' ')) := by
  funext c
  have : " ".toList = [' '] := rfl
  rw [this]
  by_cases h : c = ' ' <;> simp [h]

theorem spec_lib_names_nil : spec_lib_names [] = [] := by
  simp [spec_lib_names, List.splitOnP_nil]

theorem spec_lib_names_space (s : CStr) : spec_lib_names (' ' :: s) = spec_lib_names s := by
  simp [spec_lib_names, List.splitOnP_cons]

theorem spec_lib_names_dropWhile (s : CStr) :
    spec_lib_names (s.dropWhile (fun c => c == ' ')) = spec_lib_names s := by
  induction s with
  | nil => rfl
  | cons x xs ih =>
    rw [List.dropWhile_cons]
    by_cases hx : x = ' '
    · subst hx
      simp only [beq_self_eq_true, if_true, ih, spec_lib_names_space]
    · have : (x == ' ') = false := by simp [hx]
      simp [this]

theorem spec_lib_names_token (tok rest : CStr) (hne : tok ≠ [])
    (hns : ∀ x ∈ tok, (x == ' ') = false) :
    spec_lib_names (tok ++ ' ' :: rest) = tok :: spec_lib_names rest := by
  unfold spec_lib_names
  rw [List.splitOnP_first _ tok (fun x hx => by simp [hns x hx]) ' ' (by simp) rest]
  cases tok with
  | nil => exact absurd rfl hne
  | cons y ys => simp [List.filter_cons]

theorem spec_lib_names_single (tok : CStr) (hne : tok ≠ [])
    (hns : ∀ x ∈ tok, (x == ' ') = false) : spec_lib_names tok = [tok] := by
  unfold spec_lib_names
  rw [List.splitOnP_eq_single _ tok (fun x hx => by simp [hns x hx])]
  cases tok with
  | nil => exact absurd rfl hne
  | cons y ys => simp [List.filter_cons]

theorem strtok_none {s : CStr} (h : strtok s " ".toList = none) : spec_lib_names s = [] := by
  unfold strtok at h
  rw [delim_space_eq, delim_not_space_eq] at h
  simp only [] at h
  rw [← spec_lib_names_dropWhile]
  cases hd : s.dropWhile (fun c => c == ' ') with
  | nil => exact spec_lib_names_nil
  | cons x xs => rw [hd] at h; cases h

theorem strtok_some {s tok rest : CStr} (h : strtok s " ".toList = some (tok, rest)) :
    spec_lib_names s = tok :: spec_lib_names rest ∧ rest.length < s.length := by
  unfold strtok at h
  rw [delim_space_eq, delim_not_space_eq] at h
  simp only [] at h
  have hlen1 : (s.dropWhile (fun c => c == ' ')).length ≤ s.length :=
    (List.dropWhile_sublist _).length_le
  have hhead := List.head_dropWhile_not (fun c : Char => c == ' ') s
  rw [← spec_lib_names_dropWhile]
  cases hd : s.dropWhile (fun c => c == ' ') with
  | nil => rw [hd] at h; cases h
  | cons x xs =>
    rw [hd] at h hlen1
    have hx : (x == ' ') = false := by
      have := hhead (by rw [hd]; simp)
      simpa [hd] using this
    simp only [Option.some.injEq, Prod.mk.injEq] at h
    obtain ⟨h1, h2⟩ := h
    have hsplit := List.takeWhile_append_dropWhile (fun c : Char => !(c == ' ')) (x :: xs)
    rw [h1] at hsplit
    have htok_ne : tok ≠ [] := by
      rw [← h1, List.takeWhile_cons]
      simp [hx]
    have htok_ns : ∀ y ∈ tok, (y == ' ') = false := by
      intro y hy
      rw [← h1] at hy
      have := List.mem_takeWhile_imp hy
      simpa using this
    have hhead2 := List.head_dropWhile_not (fun c : Char => !(c == ' ')) (x :: xs)
    cases hr : (x :: xs).dropWhile (fun c => !(c == ' ')) with
    | nil =>
      rw [hr] at h2 hsplit
      simp only [List.tail_nil] at h2
      simp only [List.append_nil] at hsplit
      subst h2
      rw [← hsplit, spec_lib_names_single tok htok_ne htok_ns, spec_lib_names_nil]
      refine ⟨rfl, ?_⟩
      simp only [List.length_nil]
      simp only [List.length_cons] at hlen1
      omega
    | cons y r =>
      rw [hr] at h2 hsplit
      simp only [List.tail_cons] at h2
      subst h2
      have hy : y = ' ' := by
        have := hhead2 (by rw [hr]; simp)
        simpa [hr] using this
      subst hy
      rw [← hsplit, spec_lib_names_token tok _ htok_ne htok_ns]
      refine ⟨rfl, ?_⟩
      have hl := congrArg List.length hsplit
      simp only [List.length_append, List.length_cons] at hl hlen1
      omega

/-- With fuel above the length of the text still to scan, the loop pushes one flag, cut to
63 characters, per library name of that text. -/
theorem push_extra_libs_loop_eq (fuel : Nat) (s : CStr) (c : List CStr)
    (hfuel : s.length < fuel) :
    push_extra_libs_loop fuel s c
      = c ++ (spec_lib_names s).map (fun n => (spec_lib_flag n).take 63) := by
  induction fuel generalizing s c with
  | zero => omega
  | succ fuel ih =>
    unfold push_extra_libs_loop
    cases ht : strtok s " ".toList with
    | none => simp [strtok_none ht]
    | some tr =>
      obtain ⟨tok, rest⟩ := tr
      obtain ⟨h1, h2⟩ := strtok_some ht
      simp only []
      rw [ih rest _ (by omega), h1]
      simp [cb_cmd_push_arg, snprintf, spec_lib_flag]

theorem push_extra_libs_eq {σ : Type} (h : Host σ) (c : List CStr) :
    push_extra_libs h c = c ++ cut_extra_flags (h.getenv "EXTRA_LIBS".toList) := by
  unfold push_extra_libs cut_extra_flags
  cases he : h.getenv "EXTRA_LIBS".toList with
  | none => simp
  | some e =>
    simp only []
    by_cases hne : e = []
    · subst hne
      simp [spec_lib_names_nil]
    · simp only [hne, ne_eq, not_false_eq_true, if_true]
      rw [push_extra_libs_loop_eq _ _ _ (by omega)]
      rfl

theorem push_sources_to_cmd_eq (c srcs : List CStr) : push_sources_to_cmd c srcs = c ++ srcs := by
  induction srcs generalizing c with
  | nil => simp [push_sources_to_cmd]
  | cons s srcs ih => simp [push_sources_to_cmd, ih, cb_cmd_push_arg]

/-- The command line of `cmd_exe`, written out. -/
theorem cmd_exe_cmd_eq {σ : Type} (h : Host σ) (libdir outbuf crt0 : CStr) (srcs : List CStr) :
    cmd_exe_cmd h libdir outbuf crt0 srcs
      = spec_exe_argv (gcc_path h) outbuf crt0 srcs libdir
        ++ cut_extra_flags (h.getenv "EXTRA_LIBS".toList) := by
  unfold cmd_exe_cmd
  simp only [push_extra_libs_eq, push_sources_to_cmd_eq, cb_cmd_push_arg, cb_cmd_new,
    spec_exe_argv, List.map, List.append_assoc, List.nil_append, List.cons_append]

/-- The command line of `cmd_dll`, written out. -/
theorem cmd_dll_cmd_eq {σ : Type} (h : Host σ) (libdir outdll crt0 : CStr) (srcs : List CStr) :
    cmd_dll_cmd h libdir outdll crt0 srcs
      = spec_dll_argv (gcc_path h) outdll crt0 srcs libdir
        ++ cut_extra_flags (h.getenv "EXTRA_LIBS".toList) := by
  unfold cmd_dll_cmd
  simp only [push_extra_libs_eq, push_sources_to_cmd_eq, cb_cmd_push_arg, cb_cmd_new,
    spec_dll_argv, List.map, List.append_assoc, List.nil_append, List.cons_append]

/-! ## Lemmas on the commands -/

theorem runs_append (a b : List Event) : runs (a ++ b) = runs a ++ runs b := by
  induction a with
  | nil => rfl
  | cons e es ih => cases e <;> simp [runs, ih]

theorem cb_cmd_run_fst {σ : Type} (h : Host σ) (c : List CStr) (st : St σ) :
    (cb_cmd_run h c st).1 = (h.cb_cmd_run st.fs c).1 := rfl

theorem cb_cmd_run_trace {σ : Type} (h : Host σ) (c : List CStr) (st : St σ) :
    (cb_cmd_run h c st).2.trace = st.trace ++ [Event.run c] := rfl

theorem cb_cmd_run_fs {σ : Type} (h : Host σ) (c : List CStr) (st : St σ) :
    (cb_cmd_run h c st).2.fs = (h.cb_cmd_run st.fs c).2 := rfl

/-- The way `cmd_exe` ends, case by case. -/
theorem cmd_exe_eq {σ : Type} (h : Host σ) (st : St σ) :
    cmd_exe h st =
      match (ensure_import_libs h st).1 with
      | none => (1, (ensure_import_libs h st).2)
      | some libdir =>
        if exe_sources h st = [] then
          (1, cb_log_error (exe_link_state h st)
            "No EXE sources found (expected under source/exe/**/*.c)" [])
        else
          match exe_crt0_path h (exe_link_state h st) with
          | none => (1, cb_log_error (exe_link_state h st) "Missing crt/w95_crt0_exe.c" [])
          | some crt0 =>
            if (h.cb_cmd_run (exe_link_state h st).fs
                (cmd_exe_cmd h libdir (exe_outbuf h st) crt0 (exe_sources h st))).1 = (0, 0)
            then
              (0, cb_log_verbose
                (cb_cmd_run h (cmd_exe_cmd h libdir (exe_outbuf h st) crt0 (exe_sources h st))
                  (exe_link_state h st)).2
                "Built %s" [LogArg.str (h.cb_rel_to_workspace (exe_outbuf h st))])
            else
              (1, cb_log_error
                (cb_cmd_run h (cmd_exe_cmd h libdir (exe_outbuf h st) crt0 (exe_sources h st))
                  (exe_link_state h st)).2
                "link failed (rc=%d, code=%d)"
                [LogArg.int (h.cb_cmd_run (exe_link_state h st).fs
                    (cmd_exe_cmd h libdir (exe_outbuf h st) crt0 (exe_sources h st))).1.1,
                  LogArg.int (h.cb_cmd_run (exe_link_state h st).fs
                    (cmd_exe_cmd h libdir (exe_outbuf h st) crt0 (exe_sources h st))).1.2]) := by
  unfold cmd_exe exe_sources exe_link_state exe_outbuf link_bindir
  rcases hI : ensure_import_libs h st with ⟨_ | libdir, st1⟩
  · rfl
  · simp only [List.length_eq_zero]
    split
    · rfl
    · cases hC : exe_crt0_path h (collect_exe_sources h (ensure_out_bindir h st1).2).2 with
      | none => rfl
      | some crt0 =>
        simp only [cb_cmd_run_fst]
        rcases hR : (h.cb_cmd_run (collect_exe_sources h (ensure_out_bindir h st1).2).2.fs
          (cmd_exe_cmd h libdir
            (snprintf 512 (h.cb_join (ensure_out_bindir h st1).1
              (h.cb_join [] (default_exe_name h)) ++ ".exe".toList)) crt0
            (collect_exe_sources h (ensure_out_bindir h st1).2).1)).1 with ⟨rc, code⟩
        by_cases h0 : rc = 0 ∧ code = 0
        · obtain ⟨rfl, rfl⟩ := h0
          simp
        · have h1 : ¬ ((rc, code) = ((0 : Int), (0 : Int))) := by
            intro e
            exact h0 ⟨congrArg Prod.fst e, congrArg Prod.snd e⟩
          have h2 : rc ≠ 0 ∨ code ≠ 0 := by
            by_cases hrc : rc = 0
            · exact Or.inr (fun hc => h0 ⟨hrc, hc⟩)
            · exact Or.inl hrc
          simp only [h1, if_false, h2, if_true]

/-- The way `cmd_dll` ends, case by case. -/
theorem cmd_dll_eq {σ : Type} (h : Host σ) (st : St σ) :
    cmd_dll h st =
      match (ensure_import_libs h st).1 with
      | none => (1, (ensure_import_libs h st).2)
      | some libdir =>
        if dll_sources h st = [] then
          (1, cb_log_error (dll_link_state h st)
            "No DLL sources found (expected under source/dll/**/*.c)" [])
        else
          match dll_crt0_path h (dll_link_state h st) with
          | none => (1, cb_log_error (dll_link_state h st) "Missing crt/w95_crt0_dll.c" [])
          | some crt0 =>
            if (h.cb_cmd_run (dll_link_state h st).fs
                (cmd_dll_cmd h libdir (dll_outdll h st) crt0 (dll_sources h st))).1 = (0, 0)
            then
              (0, cb_log_verbose
                (cb_cmd_run h (cmd_dll_cmd h libdir (dll_outdll h st) crt0 (dll_sources h st))
                  (dll_link_state h st)).2
                "Built %s" [LogArg.str (h.cb_rel_to_workspace (dll_outdll h st))])
            else
              (1, cb_log_error
                (cb_cmd_run h (cmd_dll_cmd h libdir (dll_outdll h st) crt0 (dll_sources h st))
                  (dll_link_state h st)).2
                "dll link failed (rc=%d, code=%d)"
                [LogArg.int (h.cb_cmd_run (dll_link_state h st).fs
                    (cmd_dll_cmd h libdir (dll_outdll h st) crt0 (dll_sources h st))).1.1,
                  LogArg.int (h.cb_cmd_run (dll_link_state h st).fs
                    (cmd_dll_cmd h libdir (dll_outdll h st) crt0 (dll_sources h st))).1.2]) := by
  unfold cmd_dll dll_sources dll_link_state dll_outdll link_bindir
  rcases hI : ensure_import_libs h st with ⟨_ | libdir, st1⟩
  · rfl
  · simp only [List.length_eq_zero]
    split
    · rfl
    · cases hC : dll_crt0_path h (collect_dll_sources h (ensure_out_bindir h st1).2).2 with
      | none => rfl
      | some crt0 =>
        simp only [cb_cmd_run_fst]
        rcases hR : (h.cb_cmd_run (collect_dll_sources h (ensure_out_bindir h st1).2).2.fs
          (cmd_dll_cmd h libdir
            (snprintf 512 (h.cb_join (ensure_out_bindir h st1).1
              (h.cb_join [] (default_dll_name h)) ++ ".dll".toList)) crt0
            (collect_dll_sources h (ensure_out_bindir h st1).2).1)).1 with ⟨rc, code⟩
        by_cases h0 : rc = 0 ∧ code = 0
        · obtain ⟨rfl, rfl⟩ := h0
          simp
        · have h1 : ¬ ((rc, code) = ((0 : Int), (0 : Int))) := by
            intro e
            exact h0 ⟨congrArg Prod.fst e, congrArg Prod.snd e⟩
          have h2 : rc ≠ 0 ∨ code ≠ 0 := by
            by_cases hrc : rc = 0
            · exact Or.inr (fun hc => h0 ⟨hrc, hc⟩)
            · exact Or.inl hrc
          simp only [h1, if_false, h2, if_true]

theorem collect_exe_sources_runs {σ : Type} (h : Host σ) (st : St σ) :
    runs (collect_exe_sources h st).2.trace = runs st.trace := by
  unfold collect_exe_sources
  simp only []
  split
  · simp [cb_log_error, runs_append, runs]
  · rfl

theorem collect_dll_sources_runs {σ : Type} (h : Host σ) (st : St σ) :
    runs (collect_dll_sources h st).2.trace = runs st.trace := by
  unfold collect_dll_sources
  simp only []
  split
  · simp [cb_log_error, runs_append, runs]
  · rfl

theorem exe_link_state_runs {σ : Type} (h : Host σ) (st : St σ) :
    runs (exe_link_state h st).trace = runs (ensure_import_libs h st).2.trace := by
  unfold exe_link_state
  rw [collect_exe_sources_runs]
  rfl

theorem dll_link_state_runs {σ : Type} (h : Host σ) (st : St σ) :
    runs (dll_link_state h st).trace = runs (ensure_import_libs h st).2.trace := by
  unfold dll_link_state
  rw [collect_dll_sources_runs]
  rfl

/-- Unless the link step is reached, `cmd_exe` returns 1 and runs no process after the
import-library step. -/
theorem cmd_exe_not_reached {σ : Type} (h : Host σ) (st : St σ)
    (hn : ¬ exe_link_reached h st) :
    (cmd_exe h st).1 = 1
      ∧ runs (cmd_exe h st).2.trace = runs (ensure_import_libs h st).2.trace := by
  rw [cmd_exe_eq]
  unfold exe_link_reached at hn
  cases hL : (ensure_import_libs h st).1 with
  | none => exact ⟨rfl, rfl⟩
  | some L =>
    simp only []
    by_cases hS : exe_sources h st = []
    · rw [if_pos hS]
      exact ⟨rfl, by simp [cb_log_error, runs_append, runs, exe_link_state_runs]⟩
    · cases hC : exe_crt0_path h (exe_link_state h st) with
      | none =>
        rw [if_neg hS]
        exact ⟨rfl, by simp [cb_log_error, runs_append, runs, exe_link_state_runs]⟩
      | some C =>
        exact absurd ⟨by simp [hL], hS, by simp [hC]⟩ hn

/-- When the link step is reached, `cmd_exe` runs exactly one more process, the link
command, and returns 0 exactly when that process reports 0 and 0, and 1 otherwise. -/
theorem cmd_exe_reached {σ : Type} (h : Host σ) (st : St σ) (hr : exe_link_reached h st) :
    runs (cmd_exe h st).2.trace
        = runs (ensure_import_libs h st).2.trace ++ [exe_link_cmd h st]
      ∧ ((cmd_exe h st).1 = 0 ↔ exe_link_ok h st)
      ∧ ((cmd_exe h st).1 = 0 ∨ (cmd_exe h st).1 = 1) := by
  rw [cmd_exe_eq]
  unfold exe_link_reached at hr
  unfold exe_link_ok exe_link_cmd
  obtain ⟨h1, h2, h3⟩ := hr
  cases hL : (ensure_import_libs h st).1 with
  | none => exact absurd hL h1
  | some L =>
    cases hC : exe_crt0_path h (exe_link_state h st) with
    | none => exact absurd hC h3
    | some C =>
      simp only [Option.getD_some]
      rw [if_neg h2]
      split
      · rename_i hok
        refine ⟨?_, ?_, Or.inl rfl⟩
        · simp [cb_log_verbose, cb_cmd_run_trace, runs_append, runs, exe_link_state_runs]
        · exact ⟨fun _ => hok, fun _ => rfl⟩
      · rename_i hok
        refine ⟨?_, ?_, Or.inr rfl⟩
        · simp [cb_log_error, cb_cmd_run_trace, runs_append, runs, exe_link_state_runs]
        · exact ⟨fun e => absurd (show (1 : Int) = 0 from e) (by decide),
            fun e => absurd e hok⟩

/-- Unless the link step is reached, `cmd_dll` returns 1 and runs no process after the
import-library step. -/
theorem cmd_dll_not_reached {σ : Type} (h : Host σ) (st : St σ)
    (hn : ¬ dll_link_reached h st) :
    (cmd_dll h st).1 = 1
      ∧ runs (cmd_dll h st).2.trace = runs (ensure_import_libs h st).2.trace := by
  rw [cmd_dll_eq]
  unfold dll_link_reached at hn
  cases hL : (ensure_import_libs h st).1 with
  | none => exact ⟨rfl, rfl⟩
  | some L =>
    simp only []
    by_cases hS : dll_sources h st = []
    · rw [if_pos hS]
      exact ⟨rfl, by simp [cb_log_error, runs_append, runs, dll_link_state_runs]⟩
    · cases hC : dll_crt0_path h (dll_link_state h st) with
      | none =>
        rw [if_neg hS]
        exact ⟨rfl, by simp [cb_log_error, runs_append, runs, dll_link_state_runs]⟩
      | some C =>
        exact absurd ⟨by simp [hL], hS, by simp [hC]⟩ hn

/-- When the link step is reached, `cmd_dll` runs exactly one more process, the link
command, and returns 0 exactly when that process reports 0 and 0, and 1 otherwise. -/
theorem cmd_dll_reached {σ : Type} (h : Host σ) (st : St σ) (hr : dll_link_reached h st) :
    runs (cmd_dll h st).2.trace
        = runs (ensure_import_libs h st).2.trace ++ [dll_link_cmd h st]
      ∧ ((cmd_dll h st).1 = 0 ↔ dll_link_ok h st)
      ∧ ((cmd_dll h st).1 = 0 ∨ (cmd_dll h st).1 = 1) := by
  rw [cmd_dll_eq]
  unfold dll_link_reached at hr
  unfold dll_link_ok dll_link_cmd
  obtain ⟨h1, h2, h3⟩ := hr
  cases hL : (ensure_import_libs h st).1 with
  | none => exact absurd hL h1
  | some L =>
    cases hC : dll_crt0_path h (dll_link_state h st) with
    | none => exact absurd hC h3
    | some C =>
      simp only [Option.getD_some]
      rw [if_neg h2]
      split
      · rename_i hok
        refine ⟨?_, ?_, Or.inl rfl⟩
        · simp [cb_log_verbose, cb_cmd_run_trace, runs_append, runs, dll_link_state_runs]
        · exact ⟨fun _ => hok, fun _ => rfl⟩
      · rename_i hok
        refine ⟨?_, ?_, Or.inr rfl⟩
        · simp [cb_log_error, cb_cmd_run_trace, runs_append, runs, dll_link_state_runs]
        · exact ⟨fun e => absurd (show (1 : Int) = 0 from e) (by decide),
            fun e => absurd e hok⟩

/-! ## Lemmas on the import-library builder -/

/-- Without a usable `WIN95_GENERATED_PATH`, `locate_def_dir` logs the error and returns
NULL. -/
theorem locate_def_dir_fail {σ : Type} (h : Host σ) (st : St σ)
    (hE : ∀ e, h.getenv "WIN95_GENERATED_PATH".toList = some e →
      e = [] ∨ h.cb_is_dir st.fs e = false) :
    locate_def_dir h st
      = (none, cb_log_error st "Could not locate .def directory. Set WIN95_GENERATED_PATH" [])
    := by
  unfold locate_def_dir
  cases he : h.getenv "WIN95_GENERATED_PATH".toList with
  | none => rfl
  | some e =>
    simp only []
    rcases hE e he with h1 | h1
    · simp [h1]
    · simp [h1]

/-- When `locate_def_dir` returns a directory, it leaves the state as it is. -/
theorem locate_def_dir_ok {σ : Type} (h : Host σ) (st : St σ) (def_dir : CStr)
    (hloc : (locate_def_dir h st).1 = some def_dir) :
    locate_def_dir h st = (some def_dir, st) := by
  unfold locate_def_dir at hloc ⊢
  cases he : h.getenv "WIN95_GENERATED_PATH".toList with
  | none => rw [he] at hloc; cases hloc
  | some e =>
    rw [he] at hloc
    simp only [] at hloc ⊢
    split
    · rename_i hc
      rw [if_pos hc] at hloc
      simp only [Option.some.injEq] at hloc
      rw [hloc]
    · rename_i hc
      rw [if_neg hc] at hloc
      cases hloc

/-- When `locate_def_dir` returns NULL, it has logged the error and done nothing else. -/
theorem locate_def_dir_none {σ : Type} (h : Host σ) (st : St σ)
    (hloc : (locate_def_dir h st).1 = none) :
    locate_def_dir h st
      = (none, cb_log_error st "Could not locate .def directory. Set WIN95_GENERATED_PATH" [])
    := by
  unfold locate_def_dir at hloc ⊢
  cases he : h.getenv "WIN95_GENERATED_PATH".toList with
  | none => rfl
  | some e =>
    rw [he] at hloc
    simp only [] at hloc ⊢
    split
    · rename_i hc
      rw [if_pos hc] at hloc
      cases hloc
    · rfl

theorem dlltool_from_def_runs {σ : Type} (h : Host σ) (d out : CStr) (s : St σ) :
    runs (dlltool_from_def h d out s).2.trace = runs s.trace ++ [dlltool_cmd h d out] := by
  unfold dlltool_from_def
  simp only []
  split
  · simp [cb_log_error, cb_cmd_run_trace, runs_append, runs]
  · split
    · simp [cb_log_info, cb_cmd_run_trace, runs_append, runs]
    · simp [cb_cmd_run_trace, runs_append, runs]

/-- A failing `dlltool`: the run, the error message, and the result -1. -/
theorem dlltool_from_def_fail {σ : Type} (h : Host σ) (d out : CStr) (s : St σ)
    (hf : (h.cb_cmd_run s.fs (dlltool_cmd h d out)).1.1 ≠ 0
      ∨ (h.cb_cmd_run s.fs (dlltool_cmd h d out)).1.2 ≠ 0) :
    dlltool_from_def h d out s
      = (-1, { fs := (h.cb_cmd_run s.fs (dlltool_cmd h d out)).2,
               trace := s.trace ++ [Event.run (dlltool_cmd h d out),
                 Event.log_error "dlltool failed for %s -> %s (rc=%d, code=%d)"
                   [LogArg.str d, LogArg.str out,
                    LogArg.int (h.cb_cmd_run s.fs (dlltool_cmd h d out)).1.1,
                    LogArg.int (h.cb_cmd_run s.fs (dlltool_cmd h d out)).1.2]] }) := by
  unfold dlltool_from_def
  simp only [cb_cmd_run_fst]
  rw [if_pos hf]
  simp [cb_log_error, cb_cmd_run]

/-- The processes one pass of the loop runs: `dlltool` for `d` when its library is stale,
nothing otherwise. -/
theorem ensure_import_libs_body_runs {σ : Type} (h : Host σ) (libdir d : CStr) (s : St σ) :
    runs (ensure_import_libs_body h libdir d s).2.trace
      = runs s.trace
        ++ (if h.cb_needs_rebuild s.fs
              (h.cb_join libdir (make_importlib_name h.win32 d 256)) [d] = true
            then [dlltool_cmd h d (h.cb_join libdir (make_importlib_name h.win32 d 256))]
            else []) := by
  unfold ensure_import_libs_body
  simp only []
  split
  · split <;> exact dlltool_from_def_runs h d _ s
  · split
    · simp [cb_log_verbose, runs_append, runs]
    · simp

/-- A pass for a stale library whose `dlltool` fails. -/
theorem ensure_import_libs_body_fail {σ : Type} (h : Host σ) (libdir d : CStr) (s : St σ)
    (hs : h.cb_needs_rebuild s.fs
      (h.cb_join libdir (make_importlib_name h.win32 d 256)) [d] = true)
    (hf : (h.cb_cmd_run s.fs
          (dlltool_cmd h d (h.cb_join libdir (make_importlib_name h.win32 d 256)))).1.1 ≠ 0
      ∨ (h.cb_cmd_run s.fs
          (dlltool_cmd h d (h.cb_join libdir (make_importlib_name h.win32 d 256)))).1.2 ≠ 0) :
    ensure_import_libs_body h libdir d s
      = (false, (dlltool_from_def h d
          (h.cb_join libdir (make_importlib_name h.win32 d 256)) s).2) := by
  unfold ensure_import_libs_body
  simp only [hs, if_true]
  rw [dlltool_from_def_fail h d _ s hf]
  simp

theorem ensure_import_libs_loop_append {σ : Type} (h : Host σ) (libdir : CStr)
    (pre post : List CStr) (s : St σ) :
    ensure_import_libs_loop h libdir (pre ++ post) s
      = if (ensure_import_libs_loop h libdir pre s).1 = true then
          ensure_import_libs_loop h libdir post (ensure_import_libs_loop h libdir pre s).2
        else (false, (ensure_import_libs_loop h libdir pre s).2) := by
  induction pre generalizing s with
  | nil => simp [ensure_import_libs_loop]
  | cons d pre ih =>
    simp only [List.cons_append, ensure_import_libs_loop]
    split
    · exact ih _
    · simp

/-- Every process the loop runs is a `dlltool` command. -/
theorem ensure_import_libs_loop_runs {σ : Type} (h : Host σ) (libdir : CStr)
    (defs : List CStr) (s : St σ) :
    ∃ ds : List (CStr × CStr),
      runs (ensure_import_libs_loop h libdir defs s).2.trace
        = runs s.trace ++ ds.map (fun p => dlltool_cmd h p.1 p.2) := by
  induction defs generalizing s with
  | nil => exact ⟨[], by simp [ensure_import_libs_loop]⟩
  | cons d defs ih =>
    have b3 := ensure_import_libs_body_runs h libdir d s
    simp only [ensure_import_libs_loop]
    split
    · obtain ⟨ds, hds⟩ := ih (ensure_import_libs_body h libdir d s).2
      rw [hds, b3]
      split
      · exact ⟨(d, h.cb_join libdir (make_importlib_name h.win32 d 256)) :: ds, by simp⟩
      · exact ⟨ds, by simp⟩
    · rw [b3]
      split
      · exact ⟨[(d, h.cb_join libdir (make_importlib_name h.win32 d 256))], by simp⟩
      · exact ⟨[], by simp⟩

/-- The library directory `ensure_import_libs` works in. -/
theorem ensure_import_libs_located {σ : Type} (h : Host σ) (st : St σ) (def_dir : CStr)
    (hloc : (locate_def_dir h st).1 = some def_dir) :
    ensure_import_libs h st =
      if h.cb_glob (ensure_out_libdir h st).2.fs (h.cb_join def_dir "*.def".toList) = [] then
        (none, cb_log_error (ensure_out_libdir h st).2 "No .def files found in %s"
          [LogArg.str def_dir])
      else if (ensure_import_libs_loop h (ensure_out_libdir h st).1
          (h.cb_glob (ensure_out_libdir h st).2.fs (h.cb_join def_dir "*.def".toList))
          (ensure_out_libdir h st).2).1 = true then
        (some (ensure_out_libdir h st).1, (ensure_import_libs_loop h (ensure_out_libdir h st).1
          (h.cb_glob (ensure_out_libdir h st).2.fs (h.cb_join def_dir "*.def".toList))
          (ensure_out_libdir h st).2).2)
      else
        (none, (ensure_import_libs_loop h (ensure_out_libdir h st).1
          (h.cb_glob (ensure_out_libdir h st).2.fs (h.cb_join def_dir "*.def".toList))
          (ensure_out_libdir h st).2).2) := by
  unfold ensure_import_libs
  rw [locate_def_dir_ok h st def_dir hloc]
  simp only [List.length_eq_zero]

/-- Every process `ensure_import_libs` runs is a `dlltool` command. -/
theorem ensure_import_libs_runs {σ : Type} (h : Host σ) (st : St σ) :
    ∃ ds : List (CStr × CStr),
      runs (ensure_import_libs h st).2.trace
        = runs st.trace ++ ds.map (fun p => dlltool_cmd h p.1 p.2) := by
  cases hloc : (locate_def_dir h st).1 with
  | none =>
    refine ⟨[], ?_⟩
    unfold ensure_import_libs
    rw [locate_def_dir_none h st hloc]
    simp [cb_log_error, runs_append, runs]
  | some def_dir =>
    rw [ensure_import_libs_located h st def_dir hloc]
    split
    · exact ⟨[], by simp [cb_log_error, runs_append, runs, ensure_out_libdir]⟩
    · obtain ⟨ds, hds⟩ := ensure_import_libs_loop_runs h (ensure_out_libdir h st).1
        (h.cb_glob (ensure_out_libdir h st).2.fs (h.cb_join def_dir "*.def".toList))
        (ensure_out_libdir h st).2
      split
      · exact ⟨ds, hds⟩
      · exact ⟨ds, hds⟩

/-! ## C1: the import-library name -/

/-- C1 (amended): for every path `p` (on Windows: in which no backslash follows the last
`/`), `make_importlib_name` writes `lib` + lowercase of the first 191 characters of `b` +
`.a`, where `b` is the basename of `p` (the text after the last path separator) without
its extension (the text from the last `.` of the basename onward). So whenever `b` has at
most 191 characters the result is exactly `lib` + lowercase (`b`) + `.a`; the path
`MyLib.DEF` yields `libmylib.a`. -/
theorem make_importlib_name_spec (win32 : Bool) (p : CStr)
    (hsep : win32 = true → '/' ∈ p → '\\' ∉ spec_basename false p) :
    make_importlib_name win32 p 256
        = "lib".toList
          ++ ((spec_strip_ext (spec_basename win32 p)).take 191).map Char.toLower
          ++ ".a".toList
      ∧ ((spec_strip_ext (spec_basename win32 p)).length ≤ 191 →
          make_importlib_name win32 p 256 = spec_importlib_name win32 p)
      ∧ make_importlib_name win32 "MyLib.DEF".toList 256 = "libmylib.a".toList := by
  have key := make_importlib_name_eq win32 p hsep
  refine ⟨key, ?_, ?_⟩
  · intro hlen
    rw [key, List.take_of_length_le hlen]
    rfl
  · cases win32 <;> decide

/-- C1, witness: a Windows build and the path `gen/MyLib.DEF`. -/
theorem make_importlib_name_spec_witness :
    make_importlib_name true "gen/MyLib.DEF".toList 256
        = "lib".toList
          ++ ((spec_strip_ext (spec_basename true "gen/MyLib.DEF".toList)).take 191).map
              Char.toLower
          ++ ".a".toList
      ∧ ((spec_strip_ext (spec_basename true "gen/MyLib.DEF".toList)).length ≤ 191 →
          make_importlib_name true "gen/MyLib.DEF".toList 256
            = spec_importlib_name true "gen/MyLib.DEF".toList)
      ∧ make_importlib_name true "MyLib.DEF".toList 256 = "libmylib.a".toList :=
  make_importlib_name_spec true "gen/MyLib.DEF".toList (by decide)

/-- C1, counterexample: a `.def` file whose basename has 192 characters before `.def`
gets a name of 196 characters, one short of `lib` + lowercase (`b`) + `.a`; and on Windows
the path `a/b\c.def` gets the name `libb\c.a`, not `libc.a`. -/
theorem make_importlib_name_not_spec :
    make_importlib_name false (List.replicate 192 'a' ++ ".def".toList) 256
        ≠ spec_importlib_name false (List.replicate 192 'a' ++ ".def".toList)
      ∧ make_importlib_name true "a/b\\c.def".toList 256
        ≠ spec_importlib_name true "a/b\\c.def".toList := by
  constructor
  · intro h
    have hstem : spec_strip_ext (spec_basename false (List.replicate 192 'a' ++ ".def".toList))
        = List.replicate 192 'a' := by
      apply spec_stem_of_plain false (List.replicate 192 'a') "def".toList
      · intro x hx
        have hx2 : x = 'a' ∨ x ∈ ".def".toList := by
          rcases List.mem_append.mp hx with hx1 | hx1
          · exact Or.inl (List.eq_of_mem_replicate hx1)
          · exact Or.inr hx1
        rcases hx2 with rfl | hx2
        · decide
        · clear hx
          revert x
          decide
      · decide
    have hl := congrArg List.length h
    rw [make_importlib_name_eq false _ (fun e => absurd e (by decide))] at hl
    unfold spec_importlib_name at hl
    rw [hstem] at hl
    simp only [List.length_append, List.length_map, List.length_take,
      List.length_replicate] at hl
    omega
  · decide

/-! ## C3, C4: the link command lines -/

theorem spec_exe_argv_head (g o C : CStr) (S : List CStr) (L : CStr) :
    (spec_exe_argv g o C S L).head? = some g := rfl

theorem spec_dll_argv_head (g o C : CStr) (S : List CStr) (L : CStr) :
    (spec_dll_argv g o C S L).head? = some g := rfl

theorem spec_exe_argv_out (g o C : CStr) (S : List CStr) (L : CStr) :
    (spec_exe_argv g o C S L)[11]? = some o := rfl

theorem spec_dll_argv_out (g o C : CStr) (S : List CStr) (L : CStr) :
    (spec_dll_argv g o C S L)[12]? = some o := rfl

/-- The one process `cmd_exe` runs once it has reached the link step. -/
theorem cmd_exe_runs {σ : Type} (h : Host σ) (st : St σ) (L C : CStr)
    (hL : (ensure_import_libs h st).1 = some L)
    (hS : exe_sources h st ≠ [])
    (hC : exe_crt0_path h (exe_link_state h st) = some C) :
    runs (cmd_exe h st).2.trace
      = runs (ensure_import_libs h st).2.trace
        ++ [spec_exe_argv (gcc_path h) (exe_outbuf h st) C (exe_sources h st) L
            ++ cut_extra_flags (h.getenv "EXTRA_LIBS".toList)] := by
  have hr : exe_link_reached h st := ⟨by simp [hL], hS, by simp [hC]⟩
  rw [(cmd_exe_reached h st hr).1]
  unfold exe_link_cmd
  rw [hL, hC, cmd_exe_cmd_eq]
  rfl

/-- The one process `cmd_dll` runs once it has reached the link step. -/
theorem cmd_dll_runs {σ : Type} (h : Host σ) (st : St σ) (L C : CStr)
    (hL : (ensure_import_libs h st).1 = some L)
    (hS : dll_sources h st ≠ [])
    (hC : dll_crt0_path h (dll_link_state h st) = some C) :
    runs (cmd_dll h st).2.trace
      = runs (ensure_import_libs h st).2.trace
        ++ [spec_dll_argv (gcc_path h) (dll_outdll h st) C (dll_sources h st) L
            ++ cut_extra_flags (h.getenv "EXTRA_LIBS".toList)] := by
  have hr : dll_link_reached h st := ⟨by simp [hL], hS, by simp [hC]⟩
  rw [(cmd_dll_reached h st hr).1]
  unfold dll_link_cmd
  rw [hL, hC, cmd_dll_cmd_eq]
  rfl

theorem cut_extra_flags_unset (extra : Option CStr) (hE : extra = none ∨ extra = some []) :
    cut_extra_flags extra = [] := by
  rcases hE with rfl | rfl
  · rfl
  · simp [cut_extra_flags, spec_lib_names_nil]

/-- C3 (amended): when `EXTRA_LIBS` is unset or empty and `cmd_exe` reaches the link step
(import-library directory `L`, non-empty source list, CRT file `C` present), the one
process it runs after the import-library step has exactly the argument list of the claim,
except that the compiler path is `TOOL_PREFIX` + `gcc` cut to 255 characters and the output
path is `bindir/name.exe` cut to 511 characters; so with a prefix of at most 252 and a
joined output path of at most 507 characters it is the list of the claim as written. -/
theorem cmd_exe_link_argv {σ : Type} (h : Host σ) (st : St σ) (L C : CStr)
    (hE : h.getenv "EXTRA_LIBS".toList = none ∨ h.getenv "EXTRA_LIBS".toList = some [])
    (hL : (ensure_import_libs h st).1 = some L)
    (hS : exe_sources h st ≠ [])
    (hC : exe_crt0_path h (exe_link_state h st) = some C) :
    runs (cmd_exe h st).2.trace
        = runs (ensure_import_libs h st).2.trace
          ++ [spec_exe_argv (( tool_prefix h ++ "gcc".toList).take 255)
              ((h.cb_join (link_bindir h st) (h.cb_join [] (default_exe_name h))
                ++ ".exe".toList).take 511)
              C (exe_sources h st) L]
      ∧ (( tool_prefix h).length ≤ 252 →
          (h.cb_join (link_bindir h st) (h.cb_join [] (default_exe_name h))).length ≤ 507 →
          runs (cmd_exe h st).2.trace
            = runs (ensure_import_libs h st).2.trace
              ++ [spec_exe_argv ( tool_prefix h ++ "gcc".toList)
                  (h.cb_join (link_bindir h st) (h.cb_join [] (default_exe_name h))
                    ++ ".exe".toList)
                  C (exe_sources h st) L]) := by
  have key := cmd_exe_runs h st L C hL hS hC
  rw [cut_extra_flags_unset _ hE, List.append_nil] at key
  refine ⟨key, ?_⟩
  intro h1 h2
  have e1 : ( tool_prefix h ++ "gcc".toList).take 255 = tool_prefix h ++ "gcc".toList := by
    apply List.take_of_length_le
    have : "gcc".toList.length = 3 := rfl
    rw [List.length_append, this]
    omega
  have e2 : (h.cb_join (link_bindir h st) (h.cb_join [] (default_exe_name h))
      ++ ".exe".toList).take 511
      = h.cb_join (link_bindir h st) (h.cb_join [] (default_exe_name h)) ++ ".exe".toList := by
    apply List.take_of_length_le
    have : ".exe".toList.length = 4 := rfl
    rw [List.length_append, this]
    omega
  rw [← e1, ← e2]
  exact key

/-- C3, witness: the concrete host with its three libraries up to date. -/
theorem cmd_exe_link_argv_witness :
    runs (cmd_exe (demo_host demo_env []) demo_fresh).2.trace
      = [["i686-w64-mingw32-gcc", "-nostartfiles", "-nostdlib", "-O2", "-s",
          "-fno-asynchronous-unwind-tables", "-fno-ident", "-march=pentium", "-mno-sse",
          "-mno-sse2", "-o", "out/bin/app.exe", "ws/crt/w95_crt0_exe.c",
          "ws/source/exe/main.c", "-L", "out/lib/win95", "-Wl,--subsystem,windows",
          "-Wl,--major-subsystem-version,4", "-Wl,--minor-subsystem-version,0",
          "-Wl,-e,_mainCRTStartup@0", "-lkernel32", "-lmsvcrt", "-lgcc"].map String.toList] :=
  (cmd_exe_link_argv (demo_host demo_env []) demo_fresh "out/lib/win95".toList
    "ws/crt/w95_crt0_exe.c".toList (Or.inl rfl) rfl (by decide) rfl).2 (by decide) (by decide)

/-- C3, counterexample: on the concrete host with the libraries up to date, `EXTRA_LIBS`
unset, one source file and the CRT file present, the link step is reached; but with a
`TOOL_PREFIX` of 253 characters the first argument is not `TOOL_PREFIX` + `gcc`, and with
an executable name of 504 characters the output argument is not `bindir/name.exe`. -/
theorem cmd_exe_link_argv_not_claimed :
    ((demo_host long_prefix_env []).getenv "EXTRA_LIBS".toList = none
        ∧ (ensure_import_libs (demo_host long_prefix_env []) demo_fresh).1
          = some "out/lib/win95".toList
        ∧ exe_sources (demo_host long_prefix_env []) demo_fresh
          = ["ws/source/exe/main.c".toList]
        ∧ exe_crt0_path (demo_host long_prefix_env [])
            (exe_link_state (demo_host long_prefix_env []) demo_fresh)
          = some "ws/crt/w95_crt0_exe.c".toList
        ∧ runs (cmd_exe (demo_host long_prefix_env []) demo_fresh).2.trace
          ≠ runs (ensure_import_libs (demo_host long_prefix_env []) demo_fresh).2.trace
            ++ [spec_exe_argv ( tool_prefix (demo_host long_prefix_env []) ++ "gcc".toList)
                ((demo_host long_prefix_env []).cb_join
                    (link_bindir (demo_host long_prefix_env []) demo_fresh)
                    ((demo_host long_prefix_env []).cb_join []
                      (default_exe_name (demo_host long_prefix_env [])))
                  ++ ".exe".toList)
                "ws/crt/w95_crt0_exe.c".toList ["ws/source/exe/main.c".toList]
                "out/lib/win95".toList])
      ∧ ((demo_host long_name_env []).getenv "EXTRA_LIBS".toList = none
        ∧ (ensure_import_libs (demo_host long_name_env []) demo_fresh).1
          = some "out/lib/win95".toList
        ∧ exe_sources (demo_host long_name_env []) demo_fresh
          = ["ws/source/exe/main.c".toList]
        ∧ exe_crt0_path (demo_host long_name_env [])
            (exe_link_state (demo_host long_name_env []) demo_fresh)
          = some "ws/crt/w95_crt0_exe.c".toList
        ∧ runs (cmd_exe (demo_host long_name_env []) demo_fresh).2.trace
          ≠ runs (ensure_import_libs (demo_host long_name_env []) demo_fresh).2.trace
            ++ [spec_exe_argv ( tool_prefix (demo_host long_name_env []) ++ "gcc".toList)
                ((demo_host long_name_env []).cb_join
                    (link_bindir (demo_host long_name_env []) demo_fresh)
                    ((demo_host long_name_env []).cb_join []
                      (default_exe_name (demo_host long_name_env [])))
                  ++ ".exe".toList)
                "ws/crt/w95_crt0_exe.c".toList ["ws/source/exe/main.c".toList]
                "out/lib/win95".toList]) := by
  refine ⟨⟨rfl, rfl, rfl, rfl, ?_⟩, ⟨rfl, rfl, rfl, rfl, ?_⟩⟩
  · rw [cmd_exe_runs (demo_host long_prefix_env []) demo_fresh "out/lib/win95".toList
      "ws/crt/w95_crt0_exe.c".toList rfl (by decide) rfl]
    intro e
    have e1 := List.append_cancel_left e
    simp only [List.cons.injEq, and_true] at e1
    have e2 := congrArg List.head? e1
    rw [List.head?_append_of_ne_nil _ (by simp [spec_exe_argv]), spec_exe_argv_head,
      spec_exe_argv_head] at e2
    have e3 := congrArg (fun o => (o.getD []).length) e2
    have hp : tool_prefix (demo_host long_prefix_env []) = List.replicate 253 'p' := rfl
    simp only [Option.getD_some, gcc_path, snprintf, hp, List.length_take, List.length_append,
      List.length_replicate] at e3
    have : "gcc".toList.length = 3 := rfl
    rw [this] at e3
    omega
  · rw [cmd_exe_runs (demo_host long_name_env []) demo_fresh "out/lib/win95".toList
      "ws/crt/w95_crt0_exe.c".toList rfl (by decide) rfl]
    intro e
    have e1 := List.append_cancel_left e
    simp only [List.cons.injEq, and_true] at e1
    have e2 := congrArg (fun l => l[11]?) e1
    simp only [] at e2
    rw [List.getElem?_append_left (by simp [spec_exe_argv]), spec_exe_argv_out,
      spec_exe_argv_out] at e2
    have e3 := congrArg (fun o => (o.getD []).length) e2
    have hp : (demo_host long_name_env []).cb_join
        (link_bindir (demo_host long_name_env []) demo_fresh)
        ((demo_host long_name_env []).cb_join []
          (default_exe_name (demo_host long_name_env [])))
        = "out/bin/".toList ++ List.replicate 504 'n' := rfl
    simp only [Option.getD_some, exe_outbuf, snprintf, hp, List.length_take, List.length_append,
      List.length_replicate] at e3
    have h1 : ".exe".toList.length = 4 := rfl
    have h2 : "out/bin/".toList.length = 8 := rfl
    rw [h1, h2] at e3
    omega

/-- C4 (amended): when `EXTRA_LIBS` is unset or empty and `cmd_dll` reaches the link step
(import-library directory `L`, non-empty source list, CRT file `C` present), the one
process it runs after the import-library step has the EXE shape with `-shared` right
after the compiler, without `-Wl,--subsystem,windows`, and with the entry flag
`-Wl,-e,_DllMainCRTStartup@12`: exactly the argument list of the claim, except that the
compiler path is `TOOL_PREFIX` + `gcc` cut to 255 characters and the output path is
`bindir/name.dll` cut to 511 characters; so with a prefix of at most 252 and a joined
output path of at most 507 characters it is the list of the claim as written. -/
theorem cmd_dll_link_argv {σ : Type} (h : Host σ) (st : St σ) (L C : CStr)
    (hE : h.getenv "EXTRA_LIBS".toList = none ∨ h.getenv "EXTRA_LIBS".toList = some [])
    (hL : (ensure_import_libs h st).1 = some L)
    (hS : dll_sources h st ≠ [])
    (hC : dll_crt0_path h (dll_link_state h st) = some C) :
    runs (cmd_dll h st).2.trace
        = runs (ensure_import_libs h st).2.trace
          ++ [spec_dll_argv (( tool_prefix h ++ "gcc".toList).take 255)
              ((h.cb_join (link_bindir h st) (h.cb_join [] (default_dll_name h))
                ++ ".dll".toList).take 511)
              C (dll_sources h st) L]
      ∧ (( tool_prefix h).length ≤ 252 →
          (h.cb_join (link_bindir h st) (h.cb_join [] (default_dll_name h))).length ≤ 507 →
          runs (cmd_dll h st).2.trace
            = runs (ensure_import_libs h st).2.trace
              ++ [spec_dll_argv ( tool_prefix h ++ "gcc".toList)
                  (h.cb_join (link_bindir h st) (h.cb_join [] (default_dll_name h))
                    ++ ".dll".toList)
                  C (dll_sources h st) L]) := by
  have key := cmd_dll_runs h st L C hL hS hC
  rw [cut_extra_flags_unset _ hE, List.append_nil] at key
  refine ⟨key, ?_⟩
  intro h1 h2
  have e1 : ( tool_prefix h ++ "gcc".toList).take 255 = tool_prefix h ++ "gcc".toList := by
    apply List.take_of_length_le
    have : "gcc".toList.length = 3 := rfl
    rw [List.length_append, this]
    omega
  have e2 : (h.cb_join (link_bindir h st) (h.cb_join [] (default_dll_name h))
      ++ ".dll".toList).take 511
      = h.cb_join (link_bindir h st) (h.cb_join [] (default_dll_name h)) ++ ".dll".toList := by
    apply List.take_of_length_le
    have : ".dll".toList.length = 4 := rfl
    rw [List.length_append, this]
    omega
  rw [← e1, ← e2]
  exact key

/-- C4, witness: the concrete host with its three libraries up to date. -/
theorem cmd_dll_link_argv_witness :
    runs (cmd_dll (demo_host demo_env []) demo_fresh).2.trace
      = [["i686-w64-mingw32-gcc", "-shared", "-nostartfiles", "-nostdlib", "-O2", "-s",
          "-fno-asynchronous-unwind-tables", "-fno-ident", "-march=pentium", "-mno-sse",
          "-mno-sse2", "-o", "out/bin/mylib.dll", "ws/crt/w95_crt0_dll.c",
          "ws/source/dll/main.c", "-L", "out/lib/win95",
          "-Wl,--major-subsystem-version,4", "-Wl,--minor-subsystem-version,0",
          "-Wl,-e,_DllMainCRTStartup@12", "-lkernel32", "-lmsvcrt", "-lgcc"].map
          String.toList] :=
  (cmd_dll_link_argv (demo_host demo_env []) demo_fresh "out/lib/win95".toList
    "ws/crt/w95_crt0_dll.c".toList (Or.inl rfl) rfl (by decide) rfl).2 (by decide) (by decide)

/-- C4, counterexample: on the concrete host with the libraries up to date, `EXTRA_LIBS`
unset, one source file and the CRT file present, the link step is reached; but with a
`TOOL_PREFIX` of 253 characters the first argument is not `TOOL_PREFIX` + `gcc`, and with
a library name of 504 characters the output argument is not `bindir/name.dll`. -/
theorem cmd_dll_link_argv_not_claimed :
    ((demo_host long_prefix_env []).getenv "EXTRA_LIBS".toList = none
        ∧ (ensure_import_libs (demo_host long_prefix_env []) demo_fresh).1
          = some "out/lib/win95".toList
        ∧ dll_sources (demo_host long_prefix_env []) demo_fresh
          = ["ws/source/dll/main.c".toList]
        ∧ dll_crt0_path (demo_host long_prefix_env [])
            (dll_link_state (demo_host long_prefix_env []) demo_fresh)
          = some "ws/crt/w95_crt0_dll.c".toList
        ∧ runs (cmd_dll (demo_host long_prefix_env []) demo_fresh).2.trace
          ≠ runs (ensure_import_libs (demo_host long_prefix_env []) demo_fresh).2.trace
            ++ [spec_dll_argv ( tool_prefix (demo_host long_prefix_env []) ++ "gcc".toList)
                ((demo_host long_prefix_env []).cb_join
                    (link_bindir (demo_host long_prefix_env []) demo_fresh)
                    ((demo_host long_prefix_env []).cb_join []
                      (default_dll_name (demo_host long_prefix_env [])))
                  ++ ".dll".toList)
                "ws/crt/w95_crt0_dll.c".toList ["ws/source/dll/main.c".toList]
                "out/lib/win95".toList])
      ∧ ((demo_host long_name_env []).getenv "EXTRA_LIBS".toList = none
        ∧ (ensure_import_libs (demo_host long_name_env []) demo_fresh).1
          = some "out/lib/win95".toList
        ∧ dll_sources (demo_host long_name_env []) demo_fresh
          = ["ws/source/dll/main.c".toList]
        ∧ dll_crt0_path (demo_host long_name_env [])
            (dll_link_state (demo_host long_name_env []) demo_fresh)
          = some "ws/crt/w95_crt0_dll.c".toList
        ∧ runs (cmd_dll (demo_host long_name_env []) demo_fresh).2.trace
          ≠ runs (ensure_import_libs (demo_host long_name_env []) demo_fresh).2.trace
            ++ [spec_dll_argv ( tool_prefix (demo_host long_name_env []) ++ "gcc".toList)
                ((demo_host long_name_env []).cb_join
                    (link_bindir (demo_host long_name_env []) demo_fresh)
                    ((demo_host long_name_env []).cb_join []
                      (default_dll_name (demo_host long_name_env [])))
                  ++ ".dll".toList)
                "ws/crt/w95_crt0_dll.c".toList ["ws/source/dll/main.c".toList]
                "out/lib/win95".toList]) := by
  refine ⟨⟨rfl, rfl, rfl, rfl, ?_⟩, ⟨rfl, rfl, rfl, rfl, ?_⟩⟩
  · rw [cmd_dll_runs (demo_host long_prefix_env []) demo_fresh "out/lib/win95".toList
      "ws/crt/w95_crt0_dll.c".toList rfl (by decide) rfl]
    intro e
    have e1 := List.append_cancel_left e
    simp only [List.cons.injEq, and_true] at e1
    have e2 := congrArg List.head? e1
    rw [List.head?_append_of_ne_nil _ (by simp [spec_dll_argv]), spec_dll_argv_head,
      spec_dll_argv_head] at e2
    have e3 := congrArg (fun o => (o.getD []).length) e2
    have hp : tool_prefix (demo_host long_prefix_env []) = List.replicate 253 'p' := rfl
    simp only [Option.getD_some, gcc_path, snprintf, hp, List.length_take, List.length_append,
      List.length_replicate] at e3
    have : "gcc".toList.length = 3 := rfl
    rw [this] at e3
    omega
  · rw [cmd_dll_runs (demo_host long_name_env []) demo_fresh "out/lib/win95".toList
      "ws/crt/w95_crt0_dll.c".toList rfl (by decide) rfl]
    intro e
    have e1 := List.append_cancel_left e
    simp only [List.cons.injEq, and_true] at e1
    have e2 := congrArg (fun l => l[12]?) e1
    simp only [] at e2
    rw [List.getElem?_append_left (by simp [spec_dll_argv]), spec_dll_argv_out,
      spec_dll_argv_out] at e2
    have e3 := congrArg (fun o => (o.getD []).length) e2
    have hp : (demo_host long_name_env []).cb_join
        (link_bindir (demo_host long_name_env []) demo_fresh)
        ((demo_host long_name_env []).cb_join []
          (default_dll_name (demo_host long_name_env [])))
        = "out/bin/".toList ++ List.replicate 504 'n' := rfl
    simp only [Option.getD_some, dll_outdll, snprintf, hp, List.length_take, List.length_append,
      List.length_replicate] at e3
    have h1 : ".dll".toList.length = 4 := rfl
    have h2 : "out/bin/".toList.length = 8 := rfl
    rw [h1, h2] at e3
    omega

/-! ## C6: the flags for `EXTRA_LIBS` -/

theorem spec_lib_names_spaces (n : Nat) (s : CStr) :
    spec_lib_names (List.replicate n ' ' ++ s) = spec_lib_names s := by
  induction n with
  | zero => rfl
  | succ n ih => rw [List.replicate_succ, List.cons_append, spec_lib_names_space, ih]

/-- Within the buffer sizes the flags pushed are the flags of the specification. -/
theorem cut_extra_flags_small (e : CStr) (h1 : e.length ≤ 511)
    (h2 : ∀ n ∈ spec_lib_names e, n.length ≤ 61) :
    cut_extra_flags (some e) = spec_extra_flags (some e) := by
  unfold cut_extra_flags spec_extra_flags
  simp only []
  rw [List.take_of_length_le h1]
  apply List.map_congr_left
  intro n hn
  apply List.take_of_length_le
  have := h2 n hn
  have h3 : "-l".toList.length = 2 := rfl
  unfold spec_lib_flag
  rw [List.length_append, h3]
  omega

/-- C6 (amended): once the link step is reached, the arguments that `cmd_exe` and
`cmd_dll` append after `-lgcc` are the flags `-l` + name, each cut to at most 63
characters, for each library name (maximal non-empty run of non-space characters) in the
first 511 characters of `EXTRA_LIBS`, one flag per name and in order; an unset or empty
value appends nothing; and for a value of at most 511 characters whose names have at most
61 characters they are exactly the flags `-l` + name of all its names. -/
theorem extra_libs_flags {σ : Type} (h : Host σ) (st : St σ) :
    (∀ L C, (ensure_import_libs h st).1 = some L → exe_sources h st ≠ [] →
        exe_crt0_path h (exe_link_state h st) = some C →
        runs (cmd_exe h st).2.trace
          = runs (ensure_import_libs h st).2.trace
            ++ [spec_exe_argv (gcc_path h) (exe_outbuf h st) C (exe_sources h st) L
                ++ cut_extra_flags (h.getenv "EXTRA_LIBS".toList)])
      ∧ (∀ L C, (ensure_import_libs h st).1 = some L → dll_sources h st ≠ [] →
        dll_crt0_path h (dll_link_state h st) = some C →
        runs (cmd_dll h st).2.trace
          = runs (ensure_import_libs h st).2.trace
            ++ [spec_dll_argv (gcc_path h) (dll_outdll h st) C (dll_sources h st) L
                ++ cut_extra_flags (h.getenv "EXTRA_LIBS".toList)])
      ∧ cut_extra_flags none = [] ∧ cut_extra_flags (some []) = []
      ∧ (∀ e : CStr, e.length ≤ 511 → (∀ n ∈ spec_lib_names e, n.length ≤ 61) →
          cut_extra_flags (some e) = spec_extra_flags (some e)) :=
  ⟨fun L C hL hS hC => cmd_exe_runs h st L C hL hS hC,
    fun L C hL hS hC => cmd_dll_runs h st L C hL hS hC,
    cut_extra_flags_unset none (Or.inl rfl), cut_extra_flags_unset (some []) (Or.inr rfl),
    cut_extra_flags_small⟩

/-- C6, witness: `EXTRA_LIBS` set to ` user32  gdi32 ` on the concrete host. -/
theorem extra_libs_flags_witness :
    runs (cmd_exe (demo_host two_libs_env []) demo_fresh).2.trace
        = [["i686-w64-mingw32-gcc", "-nostartfiles", "-nostdlib", "-O2", "-s",
          "-fno-asynchronous-unwind-tables", "-fno-ident", "-march=pentium", "-mno-sse",
          "-mno-sse2", "-o", "out/bin/app.exe", "ws/crt/w95_crt0_exe.c",
          "ws/source/exe/main.c", "-L", "out/lib/win95", "-Wl,--subsystem,windows",
          "-Wl,--major-subsystem-version,4", "-Wl,--minor-subsystem-version,0",
          "-Wl,-e,_mainCRTStartup@0", "-lkernel32", "-lmsvcrt", "-lgcc",
          "-luser32", "-lgdi32"].map String.toList]
      ∧ cut_extra_flags (some " user32  gdi32 ".toList)
        = spec_extra_flags (some " user32  gdi32 ".toList) :=
  ⟨(extra_libs_flags (demo_host two_libs_env []) demo_fresh).1 "out/lib/win95".toList
      "ws/crt/w95_crt0_exe.c".toList rfl (by decide) rfl,
    (extra_libs_flags (demo_host two_libs_env []) demo_fresh).2.2.2.2
      " user32  gdi32 ".toList (by decide) (by decide)⟩

/-- C6, counterexample: on the concrete host the link step is reached; a library name of
62 characters gives a flag of 63 characters, not `-l` + name; and of 510 spaces followed
by `ab` only `a` is seen, so the flag is `-la`. -/
theorem extra_libs_flags_not_claimed :
    ((ensure_import_libs (demo_host long_lib_env []) demo_fresh).1
          = some "out/lib/win95".toList
        ∧ exe_sources (demo_host long_lib_env []) demo_fresh
          = ["ws/source/exe/main.c".toList]
        ∧ exe_crt0_path (demo_host long_lib_env [])
            (exe_link_state (demo_host long_lib_env []) demo_fresh)
          = some "ws/crt/w95_crt0_exe.c".toList
        ∧ runs (cmd_exe (demo_host long_lib_env []) demo_fresh).2.trace
          ≠ runs (ensure_import_libs (demo_host long_lib_env []) demo_fresh).2.trace
            ++ [spec_exe_argv (gcc_path (demo_host long_lib_env []))
                  (exe_outbuf (demo_host long_lib_env []) demo_fresh)
                  "ws/crt/w95_crt0_exe.c".toList ["ws/source/exe/main.c".toList]
                  "out/lib/win95".toList
                ++ spec_extra_flags
                  ((demo_host long_lib_env []).getenv "EXTRA_LIBS".toList)])
      ∧ ((ensure_import_libs (demo_host long_extra_env []) demo_fresh).1
          = some "out/lib/win95".toList
        ∧ dll_sources (demo_host long_extra_env []) demo_fresh
          = ["ws/source/dll/main.c".toList]
        ∧ dll_crt0_path (demo_host long_extra_env [])
            (dll_link_state (demo_host long_extra_env []) demo_fresh)
          = some "ws/crt/w95_crt0_dll.c".toList
        ∧ runs (cmd_dll (demo_host long_extra_env []) demo_fresh).2.trace
          ≠ runs (ensure_import_libs (demo_host long_extra_env []) demo_fresh).2.trace
            ++ [spec_dll_argv (gcc_path (demo_host long_extra_env []))
                  (dll_outdll (demo_host long_extra_env []) demo_fresh)
                  "ws/crt/w95_crt0_dll.c".toList ["ws/source/dll/main.c".toList]
                  "out/lib/win95".toList
                ++ spec_extra_flags
                  ((demo_host long_extra_env []).getenv "EXTRA_LIBS".toList)]) := by
  refine ⟨⟨rfl, rfl, rfl, ?_⟩, ⟨rfl, rfl, rfl, ?_⟩⟩
  · rw [cmd_exe_runs (demo_host long_lib_env []) demo_fresh "out/lib/win95".toList
      "ws/crt/w95_crt0_exe.c".toList rfl (by decide) rfl]
    intro e
    have e1 := List.append_cancel_left e
    simp only [List.cons.injEq, and_true] at e1
    have e2 := List.append_cancel_left e1
    have hg : (demo_host long_lib_env []).getenv "EXTRA_LIBS".toList
        = some (List.replicate 62 'x') := rfl
    have hn : spec_lib_names (List.replicate 62 'x') = [List.replicate 62 'x'] := by
      apply spec_lib_names_single
      · simp
      · intro c hc
        rw [List.eq_of_mem_replicate hc]
        rfl
    rw [hg] at e2
    unfold cut_extra_flags spec_extra_flags at e2
    simp only [] at e2
    rw [List.take_of_length_le (by rw [List.length_replicate]; omega), hn] at e2
    simp only [List.map_cons, List.map_nil, List.cons.injEq, and_true] at e2
    have e3 := congrArg List.length e2
    have h3 : "-l".toList.length = 2 := rfl
    simp only [spec_lib_flag, List.length_take, List.length_append, List.length_replicate,
      h3] at e3
    omega
  · rw [cmd_dll_runs (demo_host long_extra_env []) demo_fresh "out/lib/win95".toList
      "ws/crt/w95_crt0_dll.c".toList rfl (by decide) rfl]
    intro e
    have e1 := List.append_cancel_left e
    simp only [List.cons.injEq, and_true] at e1
    have e2 := List.append_cancel_left e1
    have hg : (demo_host long_extra_env []).getenv "EXTRA_LIBS".toList
        = some (List.replicate 510 ' ' ++ "ab".toList) := rfl
    have ht : (List.replicate 510 ' ' ++ "ab".toList).take 511
        = List.replicate 510 ' ' ++ "a".toList := by
      rw [List.take_append_eq_append_take,
        List.take_of_length_le (by rw [List.length_replicate]; omega)]
      simp only [List.length_replicate]
      rfl
    rw [hg] at e2
    unfold cut_extra_flags spec_extra_flags at e2
    simp only [] at e2
    rw [ht, spec_lib_names_spaces, spec_lib_names_spaces] at e2
    revert e2
    decide

/-! ## C7: no `.def` directory -/

/-- C7: if `WIN95_GENERATED_PATH` is unset, empty or not an existing directory, `cmd_exe`
and `cmd_dll` both return 1, log the configuration error and do nothing else: no process
is run and the file system is left as it was. -/
theorem cmd_without_def_dir {σ : Type} (h : Host σ) (st : St σ)
    (hE : ∀ e, h.getenv "WIN95_GENERATED_PATH".toList = some e →
      e = [] ∨ h.cb_is_dir st.fs e = false) :
    ((cmd_exe h st).1 = 1
        ∧ (cmd_exe h st).2.trace = st.trace
          ++ [Event.log_error "Could not locate .def directory. Set WIN95_GENERATED_PATH" []]
        ∧ (cmd_exe h st).2.fs = st.fs
        ∧ runs (cmd_exe h st).2.trace = runs st.trace)
      ∧ ((cmd_dll h st).1 = 1
        ∧ (cmd_dll h st).2.trace = st.trace
          ++ [Event.log_error "Could not locate .def directory. Set WIN95_GENERATED_PATH" []]
        ∧ (cmd_dll h st).2.fs = st.fs
        ∧ runs (cmd_dll h st).2.trace = runs st.trace) := by
  have hI : ensure_import_libs h st
      = (none, cb_log_error st "Could not locate .def directory. Set WIN95_GENERATED_PATH" [])
      := by
    unfold ensure_import_libs
    rw [locate_def_dir_fail h st hE]
  have he : cmd_exe h st
      = (1, cb_log_error st "Could not locate .def directory. Set WIN95_GENERATED_PATH" [])
      := by
    rw [cmd_exe_eq, hI]
  have hd : cmd_dll h st
      = (1, cb_log_error st "Could not locate .def directory. Set WIN95_GENERATED_PATH" [])
      := by
    rw [cmd_dll_eq, hI]
  rw [he, hd]
  simp [cb_log_error, runs_append, runs]

/-- C7, witness: the concrete host with an empty environment. -/
theorem cmd_without_def_dir_witness :
    ((cmd_exe (demo_host [] []) demo_clean).1 = 1
        ∧ (cmd_exe (demo_host [] []) demo_clean).2.trace = demo_clean.trace
          ++ [Event.log_error "Could not locate .def directory. Set WIN95_GENERATED_PATH" []]
        ∧ (cmd_exe (demo_host [] []) demo_clean).2.fs = demo_clean.fs
        ∧ runs (cmd_exe (demo_host [] []) demo_clean).2.trace = runs demo_clean.trace)
      ∧ ((cmd_dll (demo_host [] []) demo_clean).1 = 1
        ∧ (cmd_dll (demo_host [] []) demo_clean).2.trace = demo_clean.trace
          ++ [Event.log_error "Could not locate .def directory. Set WIN95_GENERATED_PATH" []]
        ∧ (cmd_dll (demo_host [] []) demo_clean).2.fs = demo_clean.fs
        ∧ runs (cmd_dll (demo_host [] []) demo_clean).2.trace = runs demo_clean.trace) :=
  cmd_without_def_dir (demo_host [] []) demo_clean (fun _ he => nomatch he)

/-! ## C9: the status of the commands -/

theorem collect_exe_sources_fs {σ : Type} (h : Host σ) (st : St σ) :
    (collect_exe_sources h st).2.fs = st.fs := by
  unfold collect_exe_sources
  simp only []
  split <;> rfl

theorem collect_dll_sources_fs {σ : Type} (h : Host σ) (st : St σ) :
    (collect_dll_sources h st).2.fs = st.fs := by
  unfold collect_dll_sources
  simp only []
  split <;> rfl

/-- The link step of `cmd_exe` is reached exactly when the import-library step returned a
directory, the source root is a directory holding at least one `.c` file, and the host
says that `crt/w95_crt0_exe.c` exists; the link command is then built from these. -/
theorem exe_link_reached_iff {σ : Type} (h : Host σ) (st : St σ) :
    (exe_link_reached h st ↔
        (ensure_import_libs h st).1 ≠ none
          ∧ (h.cb_is_dir (ensure_out_bindir h (ensure_import_libs h st).2).2.fs
                (h.cb_join h.cb_workspace_root "source/exe".toList) = true
            ∧ h.cb_rglob (ensure_out_bindir h (ensure_import_libs h st).2).2.fs
                (h.cb_join h.cb_workspace_root "source/exe".toList) ".c".toList ≠ [])
          ∧ h.cb_file_exists (ensure_out_bindir h (ensure_import_libs h st).2).2.fs
              (h.cb_join h.cb_workspace_root "crt/w95_crt0_exe.c".toList) = true)
      ∧ (exe_link_reached h st →
          exe_link_cmd h st
            = cmd_exe_cmd h ((ensure_import_libs h st).1.getD []) (exe_outbuf h st)
                (h.cb_join h.cb_workspace_root "crt/w95_crt0_exe.c".toList)
                (h.cb_rglob (ensure_out_bindir h (ensure_import_libs h st).2).2.fs
                  (h.cb_join h.cb_workspace_root "source/exe".toList) ".c".toList))
      ∧ (exe_link_state h st).fs = (ensure_out_bindir h (ensure_import_libs h st).2).2.fs := by
  have hfs : (exe_link_state h st).fs = (ensure_out_bindir h (ensure_import_libs h st).2).2.fs :=
    collect_exe_sources_fs h _
  have hsrc : exe_sources h st
      = if h.cb_is_dir (ensure_out_bindir h (ensure_import_libs h st).2).2.fs
            (h.cb_join h.cb_workspace_root "source/exe".toList) = false then []
        else h.cb_rglob (ensure_out_bindir h (ensure_import_libs h st).2).2.fs
            (h.cb_join h.cb_workspace_root "source/exe".toList) ".c".toList := by
    unfold exe_sources collect_exe_sources
    simp only []
    split <;> rfl
  have hcrt : exe_crt0_path h (exe_link_state h st)
      = if h.cb_file_exists (ensure_out_bindir h (ensure_import_libs h st).2).2.fs
            (h.cb_join h.cb_workspace_root "crt/w95_crt0_exe.c".toList) = true
        then some (h.cb_join h.cb_workspace_root "crt/w95_crt0_exe.c".toList) else none := by
    unfold exe_crt0_path
    rw [hfs]
  have hiff : exe_link_reached h st ↔
        (ensure_import_libs h st).1 ≠ none
          ∧ (h.cb_is_dir (ensure_out_bindir h (ensure_import_libs h st).2).2.fs
                (h.cb_join h.cb_workspace_root "source/exe".toList) = true
            ∧ h.cb_rglob (ensure_out_bindir h (ensure_import_libs h st).2).2.fs
                (h.cb_join h.cb_workspace_root "source/exe".toList) ".c".toList ≠ [])
          ∧ h.cb_file_exists (ensure_out_bindir h (ensure_import_libs h st).2).2.fs
              (h.cb_join h.cb_workspace_root "crt/w95_crt0_exe.c".toList) = true := by
    unfold exe_link_reached
    rw [hsrc, hcrt]
    cases hd : h.cb_is_dir (ensure_out_bindir h (ensure_import_libs h st).2).2.fs
        (h.cb_join h.cb_workspace_root "source/exe".toList) <;>
      cases hf : h.cb_file_exists (ensure_out_bindir h (ensure_import_libs h st).2).2.fs
        (h.cb_join h.cb_workspace_root "crt/w95_crt0_exe.c".toList) <;>
      simp
  refine ⟨hiff, ?_, hfs⟩
  intro hr
  obtain ⟨_, ⟨hd, _⟩, hf⟩ := hiff.mp hr
  unfold exe_link_cmd
  rw [hsrc, hcrt, hd, hf]
  simp

/-- The link step of `cmd_dll` is reached exactly when the import-library step returned a
directory, the source root is a directory holding at least one `.c` file, and the host
says that `crt/w95_crt0_dll.c` exists; the link command is then built from these. -/
theorem dll_link_reached_iff {σ : Type} (h : Host σ) (st : St σ) :
    (dll_link_reached h st ↔
        (ensure_import_libs h st).1 ≠ none
          ∧ (h.cb_is_dir (ensure_out_bindir h (ensure_import_libs h st).2).2.fs
                (h.cb_join h.cb_workspace_root "source/dll".toList) = true
            ∧ h.cb_rglob (ensure_out_bindir h (ensure_import_libs h st).2).2.fs
                (h.cb_join h.cb_workspace_root "source/dll".toList) ".c".toList ≠ [])
          ∧ h.cb_file_exists (ensure_out_bindir h (ensure_import_libs h st).2).2.fs
              (h.cb_join h.cb_workspace_root "crt/w95_crt0_dll.c".toList) = true)
      ∧ (dll_link_reached h st →
          dll_link_cmd h st
            = cmd_dll_cmd h ((ensure_import_libs h st).1.getD []) (dll_outdll h st)
                (h.cb_join h.cb_workspace_root "crt/w95_crt0_dll.c".toList)
                (h.cb_rglob (ensure_out_bindir h (ensure_import_libs h st).2).2.fs
                  (h.cb_join h.cb_workspace_root "source/dll".toList) ".c".toList))
      ∧ (dll_link_state h st).fs = (ensure_out_bindir h (ensure_import_libs h st).2).2.fs := by
  have hfs : (dll_link_state h st).fs = (ensure_out_bindir h (ensure_import_libs h st).2).2.fs :=
    collect_dll_sources_fs h _
  have hsrc : dll_sources h st
      = if h.cb_is_dir (ensure_out_bindir h (ensure_import_libs h st).2).2.fs
            (h.cb_join h.cb_workspace_root "source/dll".toList) = false then []
        else h.cb_rglob (ensure_out_bindir h (ensure_import_libs h st).2).2.fs
            (h.cb_join h.cb_workspace_root "source/dll".toList) ".c".toList := by
    unfold dll_sources collect_dll_sources
    simp only []
    split <;> rfl
  have hcrt : dll_crt0_path h (dll_link_state h st)
      = if h.cb_file_exists (ensure_out_bindir h (ensure_import_libs h st).2).2.fs
            (h.cb_join h.cb_workspace_root "crt/w95_crt0_dll.c".toList) = true
        then some (h.cb_join h.cb_workspace_root "crt/w95_crt0_dll.c".toList) else none := by
    unfold dll_crt0_path
    rw [hfs]
  have hiff : dll_link_reached h st ↔
        (ensure_import_libs h st).1 ≠ none
          ∧ (h.cb_is_dir (ensure_out_bindir h (ensure_import_libs h st).2).2.fs
                (h.cb_join h.cb_workspace_root "source/dll".toList) = true
            ∧ h.cb_rglob (ensure_out_bindir h (ensure_import_libs h st).2).2.fs
                (h.cb_join h.cb_workspace_root "source/dll".toList) ".c".toList ≠ [])
          ∧ h.cb_file_exists (ensure_out_bindir h (ensure_import_libs h st).2).2.fs
              (h.cb_join h.cb_workspace_root "crt/w95_crt0_dll.c".toList) = true := by
    unfold dll_link_reached
    rw [hsrc, hcrt]
    cases hd : h.cb_is_dir (ensure_out_bindir h (ensure_import_libs h st).2).2.fs
        (h.cb_join h.cb_workspace_root "source/dll".toList) <;>
      cases hf : h.cb_file_exists (ensure_out_bindir h (ensure_import_libs h st).2).2.fs
        (h.cb_join h.cb_workspace_root "crt/w95_crt0_dll.c".toList) <;>
      simp
  refine ⟨hiff, ?_, hfs⟩
  intro hr
  obtain ⟨_, ⟨hd, _⟩, hf⟩ := hiff.mp hr
  unfold dll_link_cmd
  rw [hsrc, hcrt, hd, hf]
  simp

/-- C9: `cmd_exe` and `cmd_dll` return 0 exactly when the import-library step succeeded
(`ensure_import_libs` returned a directory), at least one source file was collected (the
source root is a directory and the recursive glob for `.c` under it is not empty), the
host's `cb_file_exists` says that the CRT file `crt/w95_crt0_exe.c` (for the DLL:
`crt/w95_crt0_dll.c`) exists, and the link process, which is then the one process run
after the import-library step, reported the return code 0 and the exit code 0; otherwise
they return 1. When one of the first three conditions fails, every process run is a
`dlltool` command of the import-library step, so the compiler is not invoked; in
particular a missing source root, an empty source set and a missing CRT file each give 1
without a compiler run. -/
theorem cmd_status {σ : Type} (h : Host σ) (st : St σ) :
    (((cmd_exe h st).1 = 0 ↔
          ((ensure_import_libs h st).1 ≠ none
            ∧ (h.cb_is_dir (ensure_out_bindir h (ensure_import_libs h st).2).2.fs
                  (h.cb_join h.cb_workspace_root "source/exe".toList) = true
              ∧ h.cb_rglob (ensure_out_bindir h (ensure_import_libs h st).2).2.fs
                  (h.cb_join h.cb_workspace_root "source/exe".toList) ".c".toList ≠ [])
            ∧ h.cb_file_exists (ensure_out_bindir h (ensure_import_libs h st).2).2.fs
                (h.cb_join h.cb_workspace_root "crt/w95_crt0_exe.c".toList) = true)
          ∧ (h.cb_cmd_run (ensure_out_bindir h (ensure_import_libs h st).2).2.fs
              (cmd_exe_cmd h ((ensure_import_libs h st).1.getD []) (exe_outbuf h st)
                (h.cb_join h.cb_workspace_root "crt/w95_crt0_exe.c".toList)
                (h.cb_rglob (ensure_out_bindir h (ensure_import_libs h st).2).2.fs
                  (h.cb_join h.cb_workspace_root "source/exe".toList) ".c".toList))).1
              = (0, 0))
        ∧ ((cmd_exe h st).1 = 0 ∨ (cmd_exe h st).1 = 1)
        ∧ ((ensure_import_libs h st).1 ≠ none
            ∧ (h.cb_is_dir (ensure_out_bindir h (ensure_import_libs h st).2).2.fs
                  (h.cb_join h.cb_workspace_root "source/exe".toList) = true
              ∧ h.cb_rglob (ensure_out_bindir h (ensure_import_libs h st).2).2.fs
                  (h.cb_join h.cb_workspace_root "source/exe".toList) ".c".toList ≠ [])
            ∧ h.cb_file_exists (ensure_out_bindir h (ensure_import_libs h st).2).2.fs
                (h.cb_join h.cb_workspace_root "crt/w95_crt0_exe.c".toList) = true →
            runs (cmd_exe h st).2.trace
              = runs (ensure_import_libs h st).2.trace
                ++ [cmd_exe_cmd h ((ensure_import_libs h st).1.getD []) (exe_outbuf h st)
                    (h.cb_join h.cb_workspace_root "crt/w95_crt0_exe.c".toList)
                    (h.cb_rglob (ensure_out_bindir h (ensure_import_libs h st).2).2.fs
                      (h.cb_join h.cb_workspace_root "source/exe".toList) ".c".toList)])
        ∧ (¬ ((ensure_import_libs h st).1 ≠ none
            ∧ (h.cb_is_dir (ensure_out_bindir h (ensure_import_libs h st).2).2.fs
                  (h.cb_join h.cb_workspace_root "source/exe".toList) = true
              ∧ h.cb_rglob (ensure_out_bindir h (ensure_import_libs h st).2).2.fs
                  (h.cb_join h.cb_workspace_root "source/exe".toList) ".c".toList ≠ [])
            ∧ h.cb_file_exists (ensure_out_bindir h (ensure_import_libs h st).2).2.fs
                (h.cb_join h.cb_workspace_root "crt/w95_crt0_exe.c".toList) = true) →
            (cmd_exe h st).1 = 1
              ∧ ∃ ds : List (CStr × CStr), runs (cmd_exe h st).2.trace
                = runs st.trace ++ ds.map (fun p => dlltool_cmd h p.1 p.2)))
      ∧ (((cmd_dll h st).1 = 0 ↔
          ((ensure_import_libs h st).1 ≠ none
            ∧ (h.cb_is_dir (ensure_out_bindir h (ensure_import_libs h st).2).2.fs
                  (h.cb_join h.cb_workspace_root "source/dll".toList) = true
              ∧ h.cb_rglob (ensure_out_bindir h (ensure_import_libs h st).2).2.fs
                  (h.cb_join h.cb_workspace_root "source/dll".toList) ".c".toList ≠ [])
            ∧ h.cb_file_exists (ensure_out_bindir h (ensure_import_libs h st).2).2.fs
                (h.cb_join h.cb_workspace_root "crt/w95_crt0_dll.c".toList) = true)
          ∧ (h.cb_cmd_run (ensure_out_bindir h (ensure_import_libs h st).2).2.fs
              (cmd_dll_cmd h ((ensure_import_libs h st).1.getD []) (dll_outdll h st)
                (h.cb_join h.cb_workspace_root "crt/w95_crt0_dll.c".toList)
                (h.cb_rglob (ensure_out_bindir h (ensure_import_libs h st).2).2.fs
                  (h.cb_join h.cb_workspace_root "source/dll".toList) ".c".toList))).1
              = (0, 0))
        ∧ ((cmd_dll h st).1 = 0 ∨ (cmd_dll h st).1 = 1)
        ∧ ((ensure_import_libs h st).1 ≠ none
            ∧ (h.cb_is_dir (ensure_out_bindir h (ensure_import_libs h st).2).2.fs
                  (h.cb_join h.cb_workspace_root "source/dll".toList) = true
              ∧ h.cb_rglob (ensure_out_bindir h (ensure_import_libs h st).2).2.fs
                  (h.cb_join h.cb_workspace_root "source/dll".toList) ".c".toList ≠ [])
            ∧ h.cb_file_exists (ensure_out_bindir h (ensure_import_libs h st).2).2.fs
                (h.cb_join h.cb_workspace_root "crt/w95_crt0_dll.c".toList) = true →
            runs (cmd_dll h st).2.trace
              = runs (ensure_import_libs h st).2.trace
                ++ [cmd_dll_cmd h ((ensure_import_libs h st).1.getD []) (dll_outdll h st)
                    (h.cb_join h.cb_workspace_root "crt/w95_crt0_dll.c".toList)
                    (h.cb_rglob (ensure_out_bindir h (ensure_import_libs h st).2).2.fs
                      (h.cb_join h.cb_workspace_root "source/dll".toList) ".c".toList)])
        ∧ (¬ ((ensure_import_libs h st).1 ≠ none
            ∧ (h.cb_is_dir (ensure_out_bindir h (ensure_import_libs h st).2).2.fs
                  (h.cb_join h.cb_workspace_root "source/dll".toList) = true
              ∧ h.cb_rglob (ensure_out_bindir h (ensure_import_libs h st).2).2.fs
                  (h.cb_join h.cb_workspace_root "source/dll".toList) ".c".toList ≠ [])
            ∧ h.cb_file_exists (ensure_out_bindir h (ensure_import_libs h st).2).2.fs
                (h.cb_join h.cb_workspace_root "crt/w95_crt0_dll.c".toList) = true) →
            (cmd_dll h st).1 = 1
              ∧ ∃ ds : List (CStr × CStr), runs (cmd_dll h st).2.trace
                = runs st.trace ++ ds.map (fun p => dlltool_cmd h p.1 p.2))) := by
  obtain ⟨ds, hds⟩ := ensure_import_libs_runs h st
  constructor
  · obtain ⟨hiff, hcmd, hfs⟩ := exe_link_reached_iff h st
    have hnot : ¬ exe_link_reached h st → (cmd_exe h st).1 = 1 :=
      fun hn => (cmd_exe_not_reached h st hn).1
    have hok : exe_link_reached h st →
        (exe_link_ok h st ↔
          (h.cb_cmd_run (ensure_out_bindir h (ensure_import_libs h st).2).2.fs
            (cmd_exe_cmd h ((ensure_import_libs h st).1.getD []) (exe_outbuf h st)
              (h.cb_join h.cb_workspace_root "crt/w95_crt0_exe.c".toList)
              (h.cb_rglob (ensure_out_bindir h (ensure_import_libs h st).2).2.fs
                (h.cb_join h.cb_workspace_root "source/exe".toList) ".c".toList))).1
            = (0, 0)) := by
      intro hr
      unfold exe_link_ok
      rw [hcmd hr, hfs]
    refine ⟨?_, ?_, ?_, ?_⟩
    · by_cases hr : exe_link_reached h st
      · rw [(cmd_exe_reached h st hr).2.1, hok hr]
        exact ⟨fun ho => ⟨hiff.mp hr, ho⟩, fun ho => ho.2⟩
      · rw [hnot hr]
        exact ⟨fun e => absurd e (by decide), fun ho => absurd (hiff.mpr ho.1) hr⟩
    · by_cases hr : exe_link_reached h st
      · exact (cmd_exe_reached h st hr).2.2
      · exact Or.inr (hnot hr)
    · intro hc
      rw [(cmd_exe_reached h st (hiff.mpr hc)).1, hcmd (hiff.mpr hc)]
    · intro hn
      have hn2 : ¬ exe_link_reached h st := fun hr => hn (hiff.mp hr)
      exact ⟨hnot hn2, ds, by rw [(cmd_exe_not_reached h st hn2).2, hds]⟩
  · obtain ⟨hiff, hcmd, hfs⟩ := dll_link_reached_iff h st
    have hnot : ¬ dll_link_reached h st → (cmd_dll h st).1 = 1 :=
      fun hn => (cmd_dll_not_reached h st hn).1
    have hok : dll_link_reached h st →
        (dll_link_ok h st ↔
          (h.cb_cmd_run (ensure_out_bindir h (ensure_import_libs h st).2).2.fs
            (cmd_dll_cmd h ((ensure_import_libs h st).1.getD []) (dll_outdll h st)
              (h.cb_join h.cb_workspace_root "crt/w95_crt0_dll.c".toList)
              (h.cb_rglob (ensure_out_bindir h (ensure_import_libs h st).2).2.fs
                (h.cb_join h.cb_workspace_root "source/dll".toList) ".c".toList))).1
            = (0, 0)) := by
      intro hr
      unfold dll_link_ok
      rw [hcmd hr, hfs]
    refine ⟨?_, ?_, ?_, ?_⟩
    · by_cases hr : dll_link_reached h st
      · rw [(cmd_dll_reached h st hr).2.1, hok hr]
        exact ⟨fun ho => ⟨hiff.mp hr, ho⟩, fun ho => ho.2⟩
      · rw [hnot hr]
        exact ⟨fun e => absurd e (by decide), fun ho => absurd (hiff.mpr ho.1) hr⟩
    · by_cases hr : dll_link_reached h st
      · exact (cmd_dll_reached h st hr).2.2
      · exact Or.inr (hnot hr)
    · intro hc
      rw [(cmd_dll_reached h st (hiff.mpr hc)).1, hcmd (hiff.mpr hc)]
    · intro hn
      have hn2 : ¬ dll_link_reached h st := fun hr => hn (hiff.mp hr)
      exact ⟨hnot hn2, ds, by rw [(cmd_dll_not_reached h st hn2).2, hds]⟩

/-- C9, witness: on the concrete host with nothing built yet `cmd_exe` and `cmd_dll`
return 0; they return 1 when `dlltool` fails for `b.def`, and 1 when the host reports the
CRT file as missing. -/
theorem cmd_status_witness :
    (cmd_exe (demo_host demo_env []) demo_clean).1 = 0
      ∧ (cmd_exe (demo_host demo_env ["defs/b.def".toList]) demo_clean).1 ≠ 0
      ∧ (cmd_exe no_crt_host demo_clean).1 = 1
      ∧ (cmd_dll (demo_host demo_env []) demo_clean).1 = 0
      ∧ (cmd_dll (demo_host demo_env ["defs/b.def".toList]) demo_clean).1 ≠ 0
      ∧ (cmd_dll no_crt_host demo_clean).1 = 1 :=
  ⟨(cmd_status (demo_host demo_env []) demo_clean).1.1.mpr
      ⟨⟨by decide, ⟨by decide, by decide⟩, by decide⟩, by decide⟩,
    fun e => absurd
      ((cmd_status (demo_host demo_env ["defs/b.def".toList]) demo_clean).1.1.mp e).1.1
      (by decide),
    ((cmd_status no_crt_host demo_clean).1.2.2.2 (fun hc => absurd hc.2.2 (by decide))).1,
    (cmd_status (demo_host demo_env []) demo_clean).2.1.mpr
      ⟨⟨by decide, ⟨by decide, by decide⟩, by decide⟩, by decide⟩,
    fun e => absurd
      ((cmd_status (demo_host demo_env ["defs/b.def".toList]) demo_clean).2.1.mp e).1.1
      (by decide),
    ((cmd_status no_crt_host demo_clean).2.2.2.2 (fun hc => absurd hc.2.2 (by decide))).1⟩

/-! ## C2: staleness -/

/-- C8: if the `.def` files are `pre ++ d :: post`, the loop gets through `pre`, the
library of `d` is stale and the tool run for `d` reports a non-zero return code or exit
code, then `ensure_import_libs` returns NULL; what it has done ends with that run and its
error message, after everything done for `pre` (which stays as it is), so nothing is run
for `post`; and `cmd_exe` and `cmd_dll` return 1 in that very state, without running
anything more. -/
theorem ensure_import_libs_abort {σ : Type} (h : Host σ) (st : St σ) (def_dir : CStr)
    (pre : List CStr) (d : CStr) (post : List CStr)
    (hloc : (locate_def_dir h st).1 = some def_dir)
    (hdefs : h.cb_glob (ensure_out_libdir h st).2.fs (h.cb_join def_dir "*.def".toList)
      = pre ++ d :: post)
    (hpre : (ensure_import_libs_loop h (ensure_out_libdir h st).1 pre
      (ensure_out_libdir h st).2).1 = true)
    (hstale : h.cb_needs_rebuild
      (ensure_import_libs_loop h (ensure_out_libdir h st).1 pre (ensure_out_libdir h st).2).2.fs
      (h.cb_join (ensure_out_libdir h st).1 (make_importlib_name h.win32 d 256)) [d] = true)
    (hfail : (h.cb_cmd_run
        (ensure_import_libs_loop h (ensure_out_libdir h st).1 pre
          (ensure_out_libdir h st).2).2.fs
        (dlltool_cmd h d
          (h.cb_join (ensure_out_libdir h st).1 (make_importlib_name h.win32 d 256)))).1.1 ≠ 0
      ∨ (h.cb_cmd_run
        (ensure_import_libs_loop h (ensure_out_libdir h st).1 pre
          (ensure_out_libdir h st).2).2.fs
        (dlltool_cmd h d
          (h.cb_join (ensure_out_libdir h st).1 (make_importlib_name h.win32 d 256)))).1.2 ≠ 0) :
    (ensure_import_libs h st).1 = none
      ∧ (ensure_import_libs h st).2.trace
        = (ensure_import_libs_loop h (ensure_out_libdir h st).1 pre
            (ensure_out_libdir h st).2).2.trace
          ++ [Event.run (dlltool_cmd h d
                (h.cb_join (ensure_out_libdir h st).1 (make_importlib_name h.win32 d 256))),
              Event.log_error "dlltool failed for %s -> %s (rc=%d, code=%d)"
                [LogArg.str d,
                 LogArg.str
                  (h.cb_join (ensure_out_libdir h st).1 (make_importlib_name h.win32 d 256)),
                 LogArg.int (h.cb_cmd_run
                  (ensure_import_libs_loop h (ensure_out_libdir h st).1 pre
                    (ensure_out_libdir h st).2).2.fs
                  (dlltool_cmd h d (h.cb_join (ensure_out_libdir h st).1
                    (make_importlib_name h.win32 d 256)))).1.1,
                 LogArg.int (h.cb_cmd_run
                  (ensure_import_libs_loop h (ensure_out_libdir h st).1 pre
                    (ensure_out_libdir h st).2).2.fs
                  (dlltool_cmd h d (h.cb_join (ensure_out_libdir h st).1
                    (make_importlib_name h.win32 d 256)))).1.2]]
      ∧ (ensure_import_libs h st).2.fs
        = (h.cb_cmd_run
            (ensure_import_libs_loop h (ensure_out_libdir h st).1 pre
              (ensure_out_libdir h st).2).2.fs
            (dlltool_cmd h d (h.cb_join (ensure_out_libdir h st).1
              (make_importlib_name h.win32 d 256)))).2
      ∧ cmd_exe h st = (1, (ensure_import_libs h st).2)
      ∧ cmd_dll h st = (1, (ensure_import_libs h st).2) := by
  have hne : ¬ (h.cb_glob (ensure_out_libdir h st).2.fs (h.cb_join def_dir "*.def".toList)
      = []) := by
    rw [hdefs]
    simp
  have hI := ensure_import_libs_located h st def_dir hloc
  rw [if_neg hne, hdefs, ensure_import_libs_loop_append, if_pos hpre] at hI
  have hb := ensure_import_libs_body_fail h (ensure_out_libdir h st).1 d _ hstale hfail
  rw [dlltool_from_def_fail h d _ _ hfail] at hb
  simp only [ensure_import_libs_loop, hb, Bool.false_eq_true, if_false] at hI
  have h1 : (ensure_import_libs h st).1 = none := by rw [hI]
  refine ⟨h1, by rw [hI], by rw [hI], ?_, ?_⟩
  · rw [cmd_exe_eq, h1]
  · rw [cmd_dll_eq, h1]

/-- C8, witness: on the concrete host `dlltool` fails for `b.def`: `a.def` is built, the
run for `b.def` fails, nothing is run for `c.def`, and the commands return 1. -/
theorem ensure_import_libs_abort_witness :
    (ensure_import_libs (demo_host demo_env ["defs/b.def".toList]) demo_clean).1 = none
      ∧ runs (ensure_import_libs (demo_host demo_env ["defs/b.def".toList]) demo_clean).2.trace
        = [["i686-w64-mingw32-dlltool", "-d", "defs/a.def", "-k", "-l",
             "out/lib/win95/liba.a"].map String.toList,
           ["i686-w64-mingw32-dlltool", "-d", "defs/b.def", "-k", "-l",
             "out/lib/win95/libb.a"].map String.toList]
      ∧ (ensure_import_libs (demo_host demo_env ["defs/b.def".toList]) demo_clean).2.fs
        = ["out/lib/win95/liba.a".toList]
      ∧ (cmd_exe (demo_host demo_env ["defs/b.def".toList]) demo_clean).1 = 1
      ∧ (cmd_dll (demo_host demo_env ["defs/b.def".toList]) demo_clean).1 = 1 := by
  have w := ensure_import_libs_abort (demo_host demo_env ["defs/b.def".toList]) demo_clean
    "defs".toList ["defs/a.def".toList] "defs/b.def".toList ["defs/c.def".toList]
    rfl rfl rfl rfl (Or.inr (by decide))
  refine ⟨w.1, ?_, ?_, ?_, ?_⟩
  · rw [w.2.1]
    rfl
  · rw [w.2.2.1]
    rfl
  · rw [w.2.2.2.1]
  · rw [w.2.2.2.2]

/-! ## C5, C10: the start-up shim -/

theorem to_int_UINT (rc : Int) (h1 : -2 ^ 31 ≤ rc) (h2 : rc < 2 ^ 31) :
    to_int (UINT rc) = rc := by
  unfold to_int UINT
  by_cases h0 : 0 ≤ rc
  · have e : rc % 2 ^ 32 = rc := Int.emod_eq_of_lt h0 (by omega)
    rw [e]
    have h3 : (rc.toNat : Int) = rc := Int.toNat_of_nonneg h0
    have h4 : rc.toNat < 2 ^ 31 := by omega
    rw [if_pos h4, h3]
  · have e : rc % 2 ^ 32 = rc + 2 ^ 32 := by
      rw [← Int.add_emod_self]
      exact Int.emod_eq_of_lt (by omega) (by omega)
    rw [e]
    have h3 : ((rc + 2 ^ 32).toNat : Int) = rc + 2 ^ 32 := Int.toNat_of_nonneg (by omega)
    have h4 : ¬ (rc + 2 ^ 32).toNat < 2 ^ 31 := by omega
    rw [if_neg h4, h3]
    omega

/-- What `call_main` does when `main` is present. -/
theorem call_main_present (w : Win32)
    (main : Int → Option (List (Option CStr)) → Option Int) (hm : w.main = some main) :
    call_main w
      = if (w.GetModuleFileNameA w.MAX_PATH).1 ≠ 0
            ∧ (w.GetModuleFileNameA w.MAX_PATH).1 < w.MAX_PATH then
          (main 1 (some [some (w.GetModuleFileNameA w.MAX_PATH).2]),
            [CrtEvent.GetModuleFileNameA w.MAX_PATH,
             CrtEvent.main 1 (some [some (w.GetModuleFileNameA w.MAX_PATH).2])])
        else
          (main 0 none, [CrtEvent.GetModuleFileNameA w.MAX_PATH, CrtEvent.main 0 none]) := by
  unfold call_main
  rw [hm]
  simp only []
  split <;> rfl

/-- What `call_main` does when `main` is absent. -/
theorem call_main_absent (w : Win32) (hm : w.main = none) :
    call_main w = (some 0, [CrtEvent.GetModuleFileNameA w.MAX_PATH]) := by
  unfold call_main
  rw [hm]

/-- C5: `mainCRTStartup` never returns to the loader; it calls `main` at most once; when
`main` is absent it calls `ExitProcess (0)`; when `main` is present it is called once, and
if that call returns `rc` the shim then calls `ExitProcess ((UINT) rc)`, the same 32-bit
value (converting back gives `rc`), as its last act; if `main` does not give control back
the shim calls nothing more. -/
theorem mainCRTStartup_exit (w : Win32) :
    (mainCRTStartup w).1 ≠ Ending.returned_to_loader
      ∧ main_calls (mainCRTStartup w).2 ≤ 1
      ∧ (w.main = none →
          mainCRTStartup w
            = (Ending.exit_process 0,
                [CrtEvent.GetModuleFileNameA w.MAX_PATH, CrtEvent.ExitProcess 0]))
      ∧ (∀ main, w.main = some main →
          ∃ argc argv,
            (∀ rc, main argc argv = some rc →
              mainCRTStartup w
                = (Ending.exit_process (UINT rc),
                    [CrtEvent.GetModuleFileNameA w.MAX_PATH, CrtEvent.main argc argv,
                     CrtEvent.ExitProcess (UINT rc)]))
            ∧ (main argc argv = none →
              mainCRTStartup w
                = (Ending.main_did_not_return,
                    [CrtEvent.GetModuleFileNameA w.MAX_PATH, CrtEvent.main argc argv])))
      ∧ (∀ rc : Int, -2 ^ 31 ≤ rc → rc < 2 ^ 31 → to_int (UINT rc) = rc) := by
  have hpres : ∀ main, w.main = some main →
      ∃ argc argv, call_main w
        = (main argc argv, [CrtEvent.GetModuleFileNameA w.MAX_PATH, CrtEvent.main argc argv])
      := by
    intro main hm
    rw [call_main_present w main hm]
    split
    · exact ⟨_, _, rfl⟩
    · exact ⟨_, _, rfl⟩
  refine ⟨?_, ?_, ?_, ?_, to_int_UINT⟩
  · unfold mainCRTStartup
    rcases call_main w with ⟨_ | rc, tr⟩ <;> simp
  · cases hm : w.main with
    | none =>
      unfold mainCRTStartup
      rw [call_main_absent w hm]
      simp [main_calls]
    | some main =>
      obtain ⟨argc, argv, hc⟩ := hpres main hm
      unfold mainCRTStartup
      rw [hc]
      cases main argc argv <;> simp [main_calls]
  · intro hm
    unfold mainCRTStartup
    rw [call_main_absent w hm]
    rfl
  · intro main hm
    obtain ⟨argc, argv, hc⟩ := hpres main hm
    refine ⟨argc, argv, ?_, ?_⟩
    · intro rc hrc
      unfold mainCRTStartup
      rw [hc, hrc]
      rfl
    · intro hrc
      unfold mainCRTStartup
      rw [hc, hrc]

/-- C5, witness: on the concrete Win32 environment `main` returns 42 and the process exits
with 42. -/
theorem mainCRTStartup_exit_witness :
    mainCRTStartup demo_win32
        = (Ending.exit_process 42,
            [CrtEvent.GetModuleFileNameA 260,
             CrtEvent.main 1 (some [some "C:\\APP.EXE".toList]),
             CrtEvent.ExitProcess 42])
      ∧ to_int (UINT (-1)) = -1 := by
  have w := mainCRTStartup_exit demo_win32
  exact ⟨by decide, w.2.2.2.2 (-1) (by decide) (by decide)⟩

/-- C10: when `main` is present, `call_main` calls `GetModuleFileNameA` and then `main`,
and nothing else (the command-line fallback is not consulted): with `argc = 1` and an
argument vector holding the module path alone when the length `n` returned satisfies
`0 < n < MAX_PATH`, and with `argc = 0` and a null argument vector when `n = 0` or
`n ≥ MAX_PATH`. -/
theorem call_main_args (w : Win32)
    (main : Int → Option (List (Option CStr)) → Option Int) (hm : w.main = some main) :
    (0 < (w.GetModuleFileNameA w.MAX_PATH).1
        ∧ (w.GetModuleFileNameA w.MAX_PATH).1 < w.MAX_PATH →
        call_main w
          = (main 1 (some [some (w.GetModuleFileNameA w.MAX_PATH).2]),
              [CrtEvent.GetModuleFileNameA w.MAX_PATH,
               CrtEvent.main 1 (some [some (w.GetModuleFileNameA w.MAX_PATH).2])]))
      ∧ ((w.GetModuleFileNameA w.MAX_PATH).1 = 0
          ∨ w.MAX_PATH ≤ (w.GetModuleFileNameA w.MAX_PATH).1 →
        call_main w
          = (main 0 none, [CrtEvent.GetModuleFileNameA w.MAX_PATH, CrtEvent.main 0 none]))
      ∧ (∀ e ∈ (call_main w).2,
          e = CrtEvent.GetModuleFileNameA w.MAX_PATH ∨ ∃ argc argv, e = CrtEvent.main argc argv)
      ∧ (get_cmdline_fallback w).2 ≠ []
      ∧ (∀ e ∈ (get_cmdline_fallback w).2, e ∉ (call_main w).2) := by
  have hc := call_main_present w main hm
  refine ⟨?_, ?_, ?_, ?_, ?_⟩
  · intro hn
    rw [hc, if_pos ⟨by omega, hn.2⟩]
  · intro hn
    rw [hc, if_neg (by omega)]
  · rw [hc]
    split
    · intro e he
      simp only [List.mem_cons, List.mem_singleton, List.not_mem_nil, or_false] at he
      rcases he with rfl | rfl
      · exact Or.inl rfl
      · exact Or.inr ⟨_, _, rfl⟩
    · intro e he
      simp only [List.mem_cons, List.mem_singleton, List.not_mem_nil, or_false] at he
      rcases he with rfl | rfl
      · exact Or.inl rfl
      · exact Or.inr ⟨_, _, rfl⟩
  · unfold get_cmdline_fallback
    simp only []
    split <;> simp
  · have hfb : ∀ e ∈ (get_cmdline_fallback w).2,
        (∃ nm, e = CrtEvent.GetModuleHandleA nm) ∨ (∃ hK nm, e = CrtEvent.GetProcAddress hK nm)
          ∨ e = CrtEvent.GetCommandLineA := by
      unfold get_cmdline_fallback
      simp only []
      intro e he
      split at he <;> split at he <;>
        simp only [List.mem_append, List.mem_cons, List.mem_singleton, List.not_mem_nil,
          or_false] at he <;>
        aesop
    intro e he hin
    rw [hc] at hin
    rcases hfb e he with ⟨nm, rfl⟩ | ⟨hK, nm, rfl⟩ | rfl <;> split at hin <;> simp at hin

/-- C10, witness: on the concrete Win32 environment the path has 10 characters and `main`
receives it as its only argument. -/
theorem call_main_args_witness :
    call_main demo_win32
      = (some 42, [CrtEvent.GetModuleFileNameA 260,
          CrtEvent.main 1 (some [some "C:\\APP.EXE".toList])]) :=
  (call_main_args demo_win32 (fun argc _ => some (argc + 41)) rfl).1 (by decide)

end Win9x
